import Mathlib

/-!
Shallow embedding of `bin/data_generator.py` (smart-factory synthetic sensor
data generator): the batch locator (`get_latest_batch_info`), the record
synthesizer (`generate_sensor_data`) and the CSV writer (`write_csv`),
together with proofs of the spec claims about them.

Python's ambient randomness is made explicit: an `Rng` carries an infinite
stream of rationals (each draw in `[0,1)` for a valid source) and a cursor;
`random.random`, `random.uniform`, `random.randint` and `random.choice` are
modelled on top of single draws, respecting their documented ranges.
Sensor values are exact rationals; timestamps are epoch seconds (the
`%Y-%m-%dT%H:%M:%SZ` rendering of an instant is modelled character by
character where a claim depends on it).
-/

namespace DataGen

/-- Random source: an infinite stream of rationals plus a read cursor. -/
structure Rng where
  src : ℕ → ℚ
  pos : ℕ

/-- Pull one raw value from the stream. -/
def Rng.next (r : Rng) : ℚ × Rng := (r.src r.pos, ⟨r.src, r.pos + 1⟩)

/-- A valid source only produces values in `[0, 1)`, the contract of
`random.random()`. -/
def Rng.Valid (r : Rng) : Prop := ∀ n, 0 ≤ r.src n ∧ r.src n < 1

/-- Model of `random.random()`. -/
def pyRandom (r : Rng) : ℚ × Rng := r.next

/-- Model of `random.uniform(a, b)`: `a + (b-a) * random()`. -/
def pyUniform (a b : ℚ) (r : Rng) : ℚ × Rng :=
  let u := r.next
  (a + (b - a) * u.1, u.2)

/-- Model of `random.randint(a, b)`: a uniform integer in `[a, b]`,
realized as `a + ⌊(b-a+1) * random()⌋`. -/
def pyRandint (a b : ℤ) (r : Rng) : ℤ × Rng :=
  let u := r.next
  (a + ⌊((b : ℚ) - (a : ℚ) + 1) * u.1⌋, u.2)

/-- Model of `random.choice(l)`: a uniform element of `l`, realized by a
uniform index `⌊len * random()⌋` (with a default for the empty list,
where CPython would raise). -/
def pyChoice {α : Type} (l : List α) (d : α) (r : Rng) : α × Rng :=
  let u := r.next
  (l.getD (⌊(l.length : ℚ) * u.1⌋.toNat) d, u.2)

/-- Rounding to `d` decimal places, the model of Python's `round(x, d)`
on the exact rational value. -/
def roundDec (d : ℕ) (x : ℚ) : ℚ := ((round (x * 10 ^ d) : ℤ) : ℚ) / 10 ^ d

/-- The sensor channel carrying an anomaly (`anomaly_type` in the source). -/
inductive Channel where
  | temperature
  | vibration
  | pressure
deriving DecidableEq

/-- One output row of the generator. `timestamp` is the instant as rendered
by `strftime("%Y-%m-%dT%H:%M:%SZ")`, i.e. the clock truncated to whole
epoch seconds. -/
structure SensorRecord where
  machine_id : String
  timestamp : ℤ
  temperature : ℚ
  vibration : ℚ
  pressure : ℚ
  status_code : String
deriving DecidableEq

/-- Loop state of `generate_sensor_data`: the rng, the running clock
(exact, pre-truncation), the per-machine emitted counts, the available
machine list and the emitted records in order. -/
structure GenState where
  rng : Rng
  time : ℚ
  counts : String → ℕ
  avail : List String
  data : List SensorRecord

/-- Anomaly override for one selected channel (the branch arms of source
lines 110-131): replace only that channel's value by a draw from the
critical resp. warning range. -/
def applyAnomalyCh (ch : Channel) (crit : Bool) (t v pr : ℚ) (r : Rng) :
    (ℚ × ℚ × ℚ) × Rng :=
  match ch with
  | Channel.temperature =>
      if crit then
        let x := pyUniform 95 105 r
        ((x.1, v, pr), x.2)
      else
        let x := pyUniform 85 (949 / 10) r
        ((x.1, v, pr), x.2)
  | Channel.vibration =>
      if crit then
        let x := pyUniform (8 / 10) (13 / 10) r
        ((t, x.1, pr), x.2)
      else
        let x := pyUniform (5 / 10) (79 / 100) r
        ((t, x.1, pr), x.2)
  | Channel.pressure =>
      let coin := pyRandom r
      if crit then
        if coin.1 < 1 / 2 then
          let x := pyUniform 110 115 coin.2
          ((t, v, x.1), x.2)
        else
          let x := pyUniform 87 92 coin.2
          ((t, v, x.1), x.2)
      else
        if coin.1 < 1 / 2 then
          let x := pyUniform 105 (1099 / 10) coin.2
          ((t, v, x.1), x.2)
        else
          let x := pyUniform (921 / 10) 95 coin.2
          ((t, v, x.1), x.2)

/-- Anomaly override (source lines 109-131): pick one channel uniformly at
random and push it into the anomalous range. -/
def applyAnomaly (crit : Bool) (t v pr : ℚ) (r : Rng) : (ℚ × ℚ × ℚ) × Rng :=
  let c := pyChoice [Channel.temperature, Channel.vibration, Channel.pressure]
    Channel.temperature r
  applyAnomalyCh c.1 crit t v pr c.2

/-- Record emission and bookkeeping (source lines 133-147): build the row
from the rounded values and the truncated clock, bump the chosen machine's
count and drop it from the available list once it reaches its quota. -/
def mkNext (st : GenState) (R : ℕ) (mid : String) (time : ℚ) (rng : Rng)
    (t v pr : ℚ) (status : String) : GenState :=
  let record : SensorRecord :=
    ⟨mid, ⌊time⌋, roundDec 1 t, roundDec 2 v, roundDec 1 pr, status⟩
  let counts : String → ℕ := fun m => if m = mid then st.counts m + 1 else st.counts m
  ⟨rng, time, counts,
    if R ≤ counts mid then st.avail.erase mid else st.avail,
    st.data ++ [record]⟩

/-- One iteration of the generation loop (source lines 92-147) at loop
index `i`. Mirrors the draw order of the source, including the
short-circuit of `is_anomaly and random.random() < 0.3`. -/
def genStep (R : ℕ) (p : ℚ) (st : GenState) (i : ℕ) : GenState :=
  match st.avail with
  | [] => st
  | _ :: _ =>
    let c := pyChoice st.avail "" st.rng
    let rI := pyRandint 1 ((15 + i / 10 : ℕ) : ℤ) c.2
    let time := st.time + (rI.1 : ℚ)
    let rA := pyRandom rI.2
    if rA.1 < p then
      let rC := pyRandom rA.2
      let crit := decide (rC.1 < 3 / 10)
      let rT := pyUniform 65 80 rC.2
      let rV := pyUniform (1 / 100) (2 / 10) rT.2
      let rP := pyUniform 98 102 rV.2
      let ov := applyAnomaly crit rT.1 rV.1 rP.1 rP.2
      mkNext st R c.1 time ov.2 ov.1.1 ov.1.2.1 ov.1.2.2
        (if crit then "CRIT" else "WARN")
    else
      let rT := pyUniform 65 80 rA.2
      let rV := pyUniform (1 / 100) (2 / 10) rT.2
      let rP := pyUniform 98 102 rV.2
      mkNext st R c.1 time rP.2 rT.1 rV.1 rP.1 "AOK"

/-- Initial loop state of `generate_sensor_data`. -/
def initState (machines : List String) (start : ℚ) (rng : Rng) : GenState :=
  ⟨rng, start, fun _ => 0, machines, []⟩

/-- The loop state after the first `n` iterations. -/
def loopState (R : ℕ) (p : ℚ) (machines : List String) (start : ℚ) (rng : Rng)
    (n : ℕ) : GenState :=
  (List.range n).foldl (genStep R p) (initState machines start rng)

/-- The loop state after all `R * |machines|` iterations. -/
def genFinal (R : ℕ) (machines : List String) (p : ℚ) (start : ℚ) (rng : Rng) :
    GenState :=
  loopState R p machines start rng (R * machines.length)

/-- Model of `generate_sensor_data` (source lines 51-151) with the machine
list, the start timestamp and the rng made explicit parameters. The final
`data.sort(key=timestamp)` is a stable sort by timestamp. -/
def generate_sensor_data (R : ℕ) (machines : List String) (p : ℚ) (start : ℚ)
    (rng : Rng) : List SensorRecord :=
  List.insertionSort (fun a b => a.timestamp ≤ b.timestamp)
    (genFinal R machines p start rng).data

def isLeapYear (y : ℕ) : Prop := (y % 4 = 0 ∧ y % 100 ≠ 0) ∨ y % 400 = 0

instance : DecidablePred isLeapYear := fun y => by unfold isLeapYear; infer_instance

def daysInMonth (y m : ℕ) : ℕ :=
  if m = 2 then (if isLeapYear y then 29 else 28)
  else if m = 4 ∨ m = 6 ∨ m = 9 ∨ m = 11 then 30 else 31

def dayOfEra (y : ℕ) : ℕ := 365 * y + y / 4 - y / 100

def monthStart (k : ℕ) : ℕ := (153 * k + 2) / 5

def doeOf (z : ℕ) : ℕ := z % 146097

def yoeOf (z : ℕ) : ℕ := Nat.findGreatest (fun y => dayOfEra y ≤ doeOf z) 399

def doyOf (z : ℕ) : ℕ := doeOf z - dayOfEra (yoeOf z)

def mpOf (z : ℕ) : ℕ := Nat.findGreatest (fun k => monthStart k ≤ doyOf z) 11

def civilFromDaysN (z : ℕ) : ℕ × ℕ × ℕ :=
  let m := if mpOf z < 10 then mpOf z + 3 else mpOf z - 9
  (if m ≤ 2 then z / 146097 * 400 + yoeOf z + 1 else z / 146097 * 400 + yoeOf z,
   m, doyOf z - monthStart (mpOf z) + 1)

def daysFromCivilN (y m d : ℕ) : ℕ :=
  let y' := if m ≤ 2 then y - 1 else y
  let mp := if 2 < m then m - 3 else m + 9
  y' / 400 * 146097 + dayOfEra (y' % 400) + (monthStart mp + d - 1)

def digitChar (n : ℕ) : Char := Char.ofNat (48 + n)

def pad2 (n : ℕ) : List Char := [digitChar (n / 10), digitChar (n % 10)]

def pad4 (n : ℕ) : List Char :=
  [digitChar (n / 1000), digitChar (n / 100 % 10), digitChar (n / 10 % 10), digitChar (n % 10)]

def isoCore (t : ℤ) : List Char :=
  let n := (t + 62162035200).toNat
  let sod := n % 86400
  let c := civilFromDaysN (n / 86400)
  pad4 c.1 ++ '-' :: pad2 c.2.1 ++ '-' :: pad2 c.2.2 ++
    'T' :: pad2 (sod / 3600) ++ ':' :: pad2 (sod % 3600 / 60) ++ ':' :: pad2 (sod % 60)

def formatTs (t : ℤ) : String := String.mk (isoCore t ++ ['Z'])

def digitVal (c : Char) : ℕ := c.toNat - 48

def daysFromCivilZ (y mo d : ℕ) : ℤ := (daysFromCivilN y mo d : ℤ)

def parseTs (s : String) : Option ℤ :=
  match s.data with
  | [y1, y2, y3, y4, '-', m1, m2, '-', d1, d2, 'T', h1, h2, ':', n1, n2, ':', s1, s2,
     '+', '0', '0', ':', '0', '0'] =>
    if y1.isDigit ∧ y2.isDigit ∧ y3.isDigit ∧ y4.isDigit ∧ m1.isDigit ∧ m2.isDigit ∧
       d1.isDigit ∧ d2.isDigit ∧ h1.isDigit ∧ h2.isDigit ∧ n1.isDigit ∧ n2.isDigit ∧
       s1.isDigit ∧ s2.isDigit then
      let y := 1000 * digitVal y1 + 100 * digitVal y2 + 10 * digitVal y3 + digitVal y4
      let mo := 10 * digitVal m1 + digitVal m2
      let d := 10 * digitVal d1 + digitVal d2
      let hh := 10 * digitVal h1 + digitVal h2
      let mi := 10 * digitVal n1 + digitVal n2
      let ss := 10 * digitVal s1 + digitVal s2
      if 1 ≤ y ∧ 1 ≤ mo ∧ mo ≤ 12 ∧ 1 ≤ d ∧ d ≤ daysInMonth y mo ∧
         hh ≤ 23 ∧ mi ≤ 59 ∧ ss ≤ 59 then
        some (daysFromCivilZ y mo d * 86400 + (hh * 3600 + mi * 60 + ss : ℕ) - 62162035200)
      else none
    else none
  | _ => none

def replaceZchars : List Char → List Char
  | [] => []
  | c :: cs =>
    if c = 'Z' then '+' :: '0' :: '0' :: ':' :: '0' :: '0' :: replaceZchars cs
    else c :: replaceZchars cs

def strReplaceZ (s : String) : String := String.mk (replaceZchars s.data)


/-- Predicate defining the status/value consistency property of claim C1:
a `CRIT` row shows at least one critical reading, a `WARN` row shows at
least one warning-range reading and no critical one, an `AOK` row has all
three channels in their normal baseline ranges. -/
def critCond (r : SensorRecord) : Prop :=
  95 ≤ r.temperature ∨ 8 / 10 ≤ r.vibration ∨ 110 ≤ r.pressure ∨ r.pressure ≤ 92

/-- Warning-range condition of claim C1. -/
def warnCond (r : SensorRecord) : Prop :=
  (85 ≤ r.temperature ∧ r.temperature ≤ 949 / 10) ∨
  (1 / 2 ≤ r.vibration ∧ r.vibration ≤ 79 / 100) ∨
  (105 ≤ r.pressure ∧ r.pressure ≤ 1099 / 10) ∨
  (921 / 10 ≤ r.pressure ∧ r.pressure ≤ 95)

/-- Normal baseline condition of claim C1. -/
def aokCond (r : SensorRecord) : Prop :=
  (65 ≤ r.temperature ∧ r.temperature ≤ 80) ∧
  (1 / 100 ≤ r.vibration ∧ r.vibration ≤ 2 / 10) ∧
  (98 ≤ r.pressure ∧ r.pressure ≤ 102)

/-- Status/value consistency of one record (claim C1). -/
def statusConsistent (r : SensorRecord) : Prop :=
  (r.status_code = "CRIT" → critCond r) ∧
  (r.status_code = "WARN" → warnCond r ∧ ¬critCond r) ∧
  (r.status_code = "AOK" → aokCond r)

/-- The start-timestamp computation of the `__main__` entry point when a
prior timestamp `T` was recovered (source line 179):
`T + timedelta(seconds=randint(10, 30))`. -/
def mainStart (T : ℤ) (rng : Rng) : ℚ × Rng :=
  let r := pyRandint 10 30 rng
  ((T : ℚ) + (r.1 : ℚ), r.2)


/-- Model of the glob pattern `sensor_data_batch_*.csv` on a basename. -/
def globMatch (s : String) : Bool :=
  "sensor_data_batch_".data.isPrefixOf s.data && ".csv".data.isSuffixOf s.data

/-- Consume a literal character sequence from the head of `cs`. -/
def dropLit : List Char → List Char → Option (List Char)
  | [], cs => some cs
  | _, [] => none
  | l :: ls, c :: cs => if c = l then dropLit ls cs else none

/-- Numeric value of a digit run (Python `int` of the captured group). -/
def digitsVal (l : List Char) : ℕ := l.foldl (fun a c => 10 * a + digitVal c) 0

/-- Backtracking over the greedy digit capture of `(\d+)` followed by `.`
(any character) and the literal `csv`: try the longest capture first. -/
def tryBack (ds tail : List Char) : ℕ → Option ℕ
  | 0 => none
  | k + 1 =>
    match ds.drop (k + 1) ++ tail with
    | _ :: r =>
      if r.take 3 = ['c', 's', 'v'] then some (digitsVal (ds.take (k + 1)))
      else tryBack ds tail k
    | [] => tryBack ds tail k

/-- Attempt to match `sensor_data_batch_(\d+).csv` at the head of `cs`. -/
def matchHere (cs : List Char) : Option ℕ :=
  match dropLit ("sensor_data_batch_".data) cs with
  | none => none
  | some rest =>
    let ds := rest.takeWhile Char.isDigit
    if ds.isEmpty then none else tryBack ds (rest.drop ds.length) ds.length

/-- Model of `re.search(r"sensor_data_batch_(\d+).csv", name)`: leftmost
match position, greedy digit capture, returning the captured number. -/
def regexSearch : List Char → Option ℕ
  | [] => none
  | c :: cs =>
    match matchHere (c :: cs) with
    | some n => some n
    | none => regexSearch cs

/-- The batch number extracted from a file basename, if the regex matches. -/
def regexBatchNum (s : String) : Option ℕ := regexSearch s.data

/-- The fold of source lines 18-27: keep the first file whose parsed batch
number strictly exceeds the running maximum (initially 0). -/
def findLatest (files : List String) : ℕ × Option String :=
  files.foldl
    (fun acc f =>
      match regexBatchNum f with
      | none => acc
      | some nn => if acc.1 < nn then (nn, some f) else acc)
    (0, none)

/-- The maximum batch number among the matching files (0 when none). -/
def maxBatchNum (files : List String) : ℕ :=
  (files.filterMap regexBatchNum).foldl max 0

/-- The reader loop of source lines 34-37: the last non-empty row. -/
def lastNonempty (rows : List (List String)) : Option (List String) :=
  rows.foldl (fun acc row => if row.isEmpty then acc else some row) none

/-- Result of `get_latest_batch_info`: the next batch number, the last
timestamp if one was recovered, and whether the output directory was
created (the `os.makedirs` side effect made explicit). -/
structure GLBResult where
  nextBatch : ℕ
  lastTs : Option ℤ
  mkdirDone : Bool
deriving DecidableEq

/-- The `try` block of source lines 29-48 applied to the selected file:
`content = none` models an unreadable file (IO or decode error, caught),
an empty row list models `next(reader)` raising `StopIteration` (caught),
a too-short row models the `IndexError` on `last_line[1]` (caught), and an
unparseable timestamp models `fromisoformat` raising `ValueError` (caught);
each caught case returns the fallback `(N+1, now - 1 hour)`. A file with a
header but no data rows falls through to line 48 and yields `(N+1, None)`. -/
def readLastTimestamp (latestNum : ℕ) (content : Option (List (List String)))
    (now : ℤ) : GLBResult :=
  match content with
  | none => ⟨latestNum + 1, some (now - 3600), false⟩
  | some [] => ⟨latestNum + 1, some (now - 3600), false⟩
  | some (_ :: body) =>
    match lastNonempty body with
    | none => ⟨latestNum + 1, none, false⟩
    | some row =>
      match row[1]? with
      | none => ⟨latestNum + 1, some (now - 3600), false⟩
      | some cell =>
        match parseTs (strReplaceZ cell) with
        | none => ⟨latestNum + 1, some (now - 3600), false⟩
        | some ts => ⟨latestNum + 1, some ts, false⟩

/-- Model of `get_latest_batch_info` (source lines 9-48). The filesystem is
explicit: whether the directory exists, the basenames it contains, and a
reader giving each file its parsed CSV rows (`none` = unreadable). `now`
stands for `datetime.now(utc)` in epoch seconds. -/
def get_latest_batch_info (dirExists : Bool) (listing : List String)
    (readFile : String → Option (List (List String))) (now : ℤ) : GLBResult :=
  if !dirExists then ⟨1, none, true⟩
  else
    let batch_files := listing.filter globMatch
    if batch_files.isEmpty then ⟨1, none, false⟩
    else
      let latest := findLatest batch_files
      match latest.2 with
      | none => ⟨latest.1 + 1, none, false⟩
      | some f => readLastTimestamp latest.1 (readFile f) now

/-- Strip trailing slashes (the `rstrip('/')` of `posixpath.dirname`). -/
def rstripSlash (l : List Char) : List Char :=
  (l.reverse.dropWhile (fun c => c = '/')).reverse

/-- Model of `os.path.dirname` on POSIX paths: everything before the last
slash, with trailing slashes stripped unless the head is all slashes;
the empty string when the path has no directory component. -/
def dirname (p : String) : String :=
  let head := (p.data.reverse.dropWhile (fun c => c ≠ '/')).reverse
  if head.all (fun c => c = '/') then String.mk head else String.mk (rstripSlash head)

/-- An explicit filesystem for the writer: directories and files with
their CSV row contents. -/
structure FileSys where
  dirs : List String
  files : List (String × List (List String))

/-- Textual form of a numeric cell. Only its non-emptiness matters to any
consumer modelled here (the locator reads only the timestamp column), so
the rendering is the exact rational rather than Python float repr. -/
def renderQ (q : ℚ) : String := toString q.num ++ "/" ++ toString q.den

/-- One CSV data row in the writer column order (source line 155). -/
def renderRow (r : SensorRecord) : List String :=
  [r.machine_id, formatTs r.timestamp, renderQ r.temperature, renderQ r.vibration,
    renderQ r.pressure, r.status_code]

/-- The fixed CSV header. -/
def csvHeader : List String :=
  ["machine_id", "timestamp", "temperature", "vibration", "pressure", "status_code"]

/-- The full CSV contents written for a batch: header then one row per
record, in order. -/
def csvRows (data : List SensorRecord) : List (List String) :=
  csvHeader :: data.map renderRow

/-- Model of `os.makedirs(d, exist_ok=True)`: raises `FileNotFoundError`
on the empty path, otherwise ensures the directory. -/
def makedirs (fs : FileSys) (d : String) : Except String FileSys :=
  if d = "" then Except.error "FileNotFoundError"
  else Except.ok { fs with dirs := d :: fs.dirs }

/-- Model of `write_csv` (source lines 153-165): ensure the parent
directory, then write header and rows; an exception from `makedirs`
propagates and no file is created. -/
def write_csv (fs : FileSys) (data : List SensorRecord) (filename : String) :
    Except String FileSys :=
  match makedirs fs (dirname filename) with
  | Except.error e => Except.error e
  | Except.ok fs2 => Except.ok { fs2 with files := (filename, csvRows data) :: fs2.files }

lemma yoeOf_le (z : ℕ) : yoeOf z ≤ 399 := Nat.findGreatest_le 399

lemma yoeOf_spec (z : ℕ) : dayOfEra (yoeOf z) ≤ doeOf z := by
  unfold yoeOf
  exact Nat.findGreatest_spec (P := fun y => dayOfEra y ≤ doeOf z) (Nat.zero_le 399)
    (by unfold dayOfEra; omega)

lemma yoeOf_next (z : ℕ) (h : yoeOf z < 399) : doeOf z < dayOfEra (yoeOf z + 1) := by
  have h2 := Nat.findGreatest_is_greatest (P := fun y => dayOfEra y ≤ doeOf z)
    (k := yoeOf z + 1) (Nat.lt_succ_self _) (by omega)
  simp only [yoeOf] at *
  omega

lemma mpOf_le (z : ℕ) : mpOf z ≤ 11 := Nat.findGreatest_le 11

lemma mpOf_spec (z : ℕ) : monthStart (mpOf z) ≤ doyOf z := by
  unfold mpOf
  exact Nat.findGreatest_spec (P := fun k => monthStart k ≤ doyOf z) (Nat.zero_le 11)
    (by unfold monthStart; omega)

lemma mpOf_next (z : ℕ) (h : mpOf z < 11) : doyOf z < monthStart (mpOf z + 1) := by
  have h2 := Nat.findGreatest_is_greatest (P := fun k => monthStart k ≤ doyOf z)
    (k := mpOf z + 1) (Nat.lt_succ_self _) (by omega)
  simp only [mpOf] at *
  omega

set_option maxHeartbeats 4000000 in
theorem civil_inv (z : ℕ) :
    daysFromCivilN (civilFromDaysN z).1 (civilFromDaysN z).2.1 (civilFromDaysN z).2.2 = z ∧
    1 ≤ (civilFromDaysN z).2.1 ∧ (civilFromDaysN z).2.1 ≤ 12 ∧
    1 ≤ (civilFromDaysN z).2.2 ∧
    (civilFromDaysN z).2.2 ≤ daysInMonth (civilFromDaysN z).1 (civilFromDaysN z).2.1 ∧
    (719468 ≤ z → 1970 ≤ (civilFromDaysN z).1) ∧
    (z ≤ 3652364 → (civilFromDaysN z).1 ≤ 9999) := by
  have hdoe : doeOf z < 146097 := Nat.mod_lt _ (by norm_num)
  have hsplit : z / 146097 * 146097 + doeOf z = z := by
    unfold doeOf
    omega
  have hyle := yoeOf_le z
  have hyspec := yoeOf_spec z
  have hynext := yoeOf_next z
  have hdoy : doyOf z = doeOf z - dayOfEra (yoeOf z) := rfl
  have hmle := mpOf_le z
  have hmspec := mpOf_spec z
  have hmnext := mpOf_next z
  simp only [civilFromDaysN, daysFromCivilN]
  generalize hmpv : mpOf z = mp at *
  generalize hdov : doyOf z = doy at *
  generalize hyov : yoeOf z = yoe at *
  generalize hdev : doeOf z = doe at *
  generalize herv : z / 146097 = era at *
  have hyn : yoe = 399 ∨ doe < dayOfEra (yoe + 1) := by
    rcases Nat.lt_or_ge yoe 399 with h | h
    · exact Or.inr (hynext h)
    · exact Or.inl (by omega)
  have hmn : mp = 11 ∨ doy < monthStart (mp + 1) := by
    rcases Nat.lt_or_ge mp 11 with h | h
    · exact Or.inr (hmnext h)
    · exact Or.inl (by omega)
  clear hynext hmnext hmpv hdov hyov hdev herv
  simp only [dayOfEra, monthStart] at *
  have e2 : (era * 400 + yoe) % 400 = yoe := by omega
  have e1 : (era * 400 + yoe) / 400 = era := by omega
  have hdoy365 : doy ≤ 365 := by
    rcases hyn with h | h
    · omega
    · omega
  have hmn10 : mp < 10 → doy < 306 := by
    intro h
    rcases hmn with h11 | hlt
    · omega
    · omega
  have hmsp10 : 10 ≤ mp → 306 ≤ doy := by
    intro h
    omega
  refine ⟨?_, ?_, ?_, ?_, ?_, ?_, ?_⟩
  · -- round trip
    clear hyn hmn hdoy365 hmn10 hmsp10 hdoe
    interval_cases mp <;> split_ifs <;> omega
  · clear hyn hmn hdoy365 hmn10 hmsp10
    split_ifs <;> omega
  · clear hyn hmn hdoy365 hmn10 hmsp10
    split_ifs <;> omega
  · omega
  · -- day validity
    have l4 : (era * 400 + yoe + 1) % 4 = (yoe + 1) % 4 := by omega
    have l100 : (era * 400 + yoe + 1) % 100 = (yoe + 1) % 100 := by omega
    have l400 : (era * 400 + yoe + 1) % 400 = (yoe + 1) % 400 := by omega
    have d4 : (yoe + 1) % 4 = 0 → (yoe + 1) / 4 = yoe / 4 + 1 := by omega
    have d4' : (yoe + 1) % 4 ≠ 0 → (yoe + 1) / 4 = yoe / 4 := by omega
    have d100 : (yoe + 1) % 100 = 0 → (yoe + 1) / 100 = yoe / 100 + 1 := by omega
    have d100' : (yoe + 1) % 100 ≠ 0 → (yoe + 1) / 100 = yoe / 100 := by omega
    clear hsplit hmn10 hmsp10 hdoe e1
    simp only [daysInMonth, isLeapYear]
    interval_cases mp <;> split_ifs <;> omega
  · -- year lower bound past the epoch
    intro hz
    have hera4 : 4 ≤ era := by omega
    have hub : yoe ≤ 369 → 365 * yoe + yoe / 4 - yoe / 100 ≤ 134774 := by
      rcases Nat.lt_or_ge yoe 369 with h' | h'
      · intro _
        omega
      · intro h
        have h369 : yoe = 369 := by omega
        subst h369
        omega
    have hub2 : yoe ≤ 368 → 365 * yoe + yoe / 4 - yoe / 100 ≤ 134412 := by
      intro h
      omega
    clear hyn e1 e2 hmn
    split_ifs with h1 h2 <;> omega
  · -- year upper bound within the 4-digit range
    intro hz
    have hera24 : era ≤ 24 := by omega
    clear hyn e1 e2 hmn hmn10
    split_ifs with h1 h2 <;> omega

lemma digitChar_isDigit (k : ℕ) (h : k < 10) : (digitChar k).isDigit = true := by
  interval_cases k <;> decide

lemma digitVal_digitChar (k : ℕ) (h : k < 10) : digitVal (digitChar k) = k := by
  interval_cases k <;> decide

lemma digitChar_ne_Z (k : ℕ) (h : k < 10) : digitChar k ≠ 'Z' := by
  interval_cases k <;> decide

lemma replaceZchars_eq (l : List Char) (h : 'Z' ∉ l) :
    replaceZchars (l ++ ['Z']) = l ++ ['+', '0', '0', ':', '0', '0'] := by
  induction l with
  | nil => rfl
  | cons c cs ih =>
    simp only [List.mem_cons, not_or] at h
    have hne : ¬c = 'Z' := fun hc => h.1 hc.symm
    simp only [List.cons_append, replaceZchars, if_neg hne, List.append_eq, ih h.2]

lemma daysInMonth_le (y mo : ℕ) : daysInMonth y mo ≤ 31 := by
  unfold daysInMonth
  split_ifs <;> omega

set_option maxHeartbeats 2000000 in
theorem parseTs_formatTs (t : ℤ) (h0 : 0 ≤ t) (h1 : t < 253402300800) :
    parseTs (strReplaceZ (formatTs t)) = some t := by
  obtain ⟨n, hnn⟩ : ∃ n : ℕ, (t + 62162035200).toNat = n := ⟨_, rfl⟩
  have hn : (n : ℤ) = t + 62162035200 := by omega
  have hb : 62162035200 ≤ n ∧ n < 315564336000 := by omega
  rcases hcv : civilFromDaysN (n / 86400) with ⟨y, mo, d⟩
  have hciv := civil_inv (n / 86400)
  rw [hcv] at hciv
  dsimp only at hciv
  obtain ⟨hrt, hm1, hm12, hd1, hdval, hy1970, hy9999⟩ := hciv
  have hy19 : 1970 ≤ y := hy1970 (by omega)
  have hy99 : y ≤ 9999 := hy9999 (by omega)
  have hd31 : d ≤ 31 := le_trans hdval (daysInMonth_le y mo)
  have hcore : isoCore t = pad4 y ++ '-' :: pad2 mo ++ '-' :: pad2 d ++
      'T' :: pad2 (n % 86400 / 3600) ++ ':' :: pad2 (n % 86400 % 3600 / 60) ++
      ':' :: pad2 (n % 86400 % 60) := by
    simp only [isoCore]
    rw [hnn, hcv]
  have hnoZ : 'Z' ∉ isoCore t := by
    rw [hcore]
    simp only [pad4, pad2, List.cons_append, List.nil_append, List.append_assoc]
    simp only [List.mem_cons, List.not_mem_nil, or_false]
    intro hmem
    rcases hmem with h|h|h|h|h|h|h|h|h|h|h|h|h|h|h|h|h|h|h <;>
      first
        | exact digitChar_ne_Z _ (by omega) h.symm
        | exact absurd h (by decide)
  have hrepl : strReplaceZ (formatTs t) =
      String.mk (isoCore t ++ ['+', '0', '0', ':', '0', '0']) := by
    simp only [strReplaceZ, formatTs]
    rw [replaceZchars_eq _ hnoZ]
  rw [hrepl, hcore]
  simp only [pad4, pad2, List.cons_append, List.nil_append, List.append_assoc]
  simp only [parseTs]
  rw [if_pos ?hdig]
  case hdig =>
    exact ⟨digitChar_isDigit _ (by omega), digitChar_isDigit _ (by omega),
      digitChar_isDigit _ (by omega), digitChar_isDigit _ (by omega),
      digitChar_isDigit _ (by omega), digitChar_isDigit _ (by omega),
      digitChar_isDigit _ (by omega), digitChar_isDigit _ (by omega),
      digitChar_isDigit _ (by omega), digitChar_isDigit _ (by omega),
      digitChar_isDigit _ (by omega), digitChar_isDigit _ (by omega),
      digitChar_isDigit _ (by omega), digitChar_isDigit _ (by omega)⟩
  rw [digitVal_digitChar _ (by omega), digitVal_digitChar _ (by omega),
    digitVal_digitChar _ (by omega), digitVal_digitChar _ (by omega),
    digitVal_digitChar _ (by omega), digitVal_digitChar _ (by omega),
    digitVal_digitChar _ (by omega), digitVal_digitChar _ (by omega),
    digitVal_digitChar _ (by omega), digitVal_digitChar _ (by omega),
    digitVal_digitChar _ (by omega), digitVal_digitChar _ (by omega),
    digitVal_digitChar _ (by omega), digitVal_digitChar _ (by omega)]
  rw [show 1000 * (y / 1000) + 100 * (y / 100 % 10) + 10 * (y / 10 % 10) + y % 10 = y from
    by omega]
  rw [show 10 * (mo / 10) + mo % 10 = mo from by omega]
  rw [show 10 * (d / 10) + d % 10 = d from by omega]
  rw [show 10 * (n % 86400 / 3600 / 10) + n % 86400 / 3600 % 10 = n % 86400 / 3600 from
    by omega]
  rw [show 10 * (n % 86400 % 3600 / 60 / 10) + n % 86400 % 3600 / 60 % 10 =
    n % 86400 % 3600 / 60 from by omega]
  rw [show 10 * (n % 86400 % 60 / 10) + n % 86400 % 60 % 10 = n % 86400 % 60 from by omega]
  rw [if_pos ⟨by omega, hm1, hm12, hd1, hdval, by omega, by omega, by omega⟩]
  simp only [Option.some.injEq, daysFromCivilZ]
  rw [hrt]
  omega

lemma valid_of_src_eq {r r' : Rng} (h : r'.src = r.src) (hv : r.Valid) : r'.Valid := by
  intro n
  rw [h]
  exact hv n

lemma pyRandom_src (r : Rng) : (pyRandom r).2.src = r.src := rfl

lemma pyUniform_src (a b : ℚ) (r : Rng) : (pyUniform a b r).2.src = r.src := rfl

lemma pyRandint_src (a b : ℤ) (r : Rng) : (pyRandint a b r).2.src = r.src := rfl

lemma pyChoice_src {α : Type} (l : List α) (d : α) (r : Rng) :
    (pyChoice l d r).2.src = r.src := rfl

lemma pyRandom_bounds (r : Rng) (h : r.Valid) :
    0 ≤ (pyRandom r).1 ∧ (pyRandom r).1 < 1 := h r.pos

lemma pyUniform_bounds (a b : ℚ) (r : Rng) (h : r.Valid) (hab : a ≤ b) :
    a ≤ (pyUniform a b r).1 ∧ (pyUniform a b r).1 ≤ b := by
  obtain ⟨h0, h1⟩ := h r.pos
  have hmul : (b - a) * r.src r.pos ≤ (b - a) * 1 :=
    mul_le_mul_of_nonneg_left (le_of_lt h1) (by linarith)
  have hmul0 : 0 ≤ (b - a) * r.src r.pos := mul_nonneg (by linarith) h0
  constructor
  · simp only [pyUniform, Rng.next]
    linarith
  · simp only [pyUniform, Rng.next]
    linarith

lemma pyRandint_bounds (a b : ℤ) (r : Rng) (h : r.Valid) (hab : a ≤ b) :
    a ≤ (pyRandint a b r).1 ∧ (pyRandint a b r).1 ≤ b := by
  obtain ⟨h0, h1⟩ := h r.pos
  have hw : (0:ℚ) ≤ (b : ℚ) - (a : ℚ) + 1 := by
    have : (a : ℚ) ≤ (b : ℚ) := by exact_mod_cast hab
    linarith
  have hmul0 : (0:ℚ) ≤ ((b : ℚ) - (a : ℚ) + 1) * r.src r.pos := mul_nonneg hw h0
  have hwpos : (0:ℚ) < (b : ℚ) - (a : ℚ) + 1 := by
    have : (a : ℚ) ≤ (b : ℚ) := by exact_mod_cast hab
    linarith
  have hmul1 : ((b : ℚ) - (a : ℚ) + 1) * r.src r.pos < ((b : ℚ) - (a : ℚ) + 1) * 1 :=
    mul_lt_mul_of_pos_left h1 hwpos
  have hf0 : (0:ℤ) ≤ ⌊((b : ℚ) - (a : ℚ) + 1) * r.src r.pos⌋ := Int.floor_nonneg.2 hmul0
  have hfb : ⌊((b : ℚ) - (a : ℚ) + 1) * r.src r.pos⌋ < b - a + 1 := by
    apply Int.floor_lt.2
    push_cast
    linarith
  constructor
  · simp only [pyRandint, Rng.next]
    omega
  · simp only [pyRandint, Rng.next]
    omega

lemma pyChoice_mem {α : Type} (l : List α) (d : α) (r : Rng) (h : r.Valid)
    (hne : l ≠ []) : (pyChoice l d r).1 ∈ l := by
  obtain ⟨h0, h1⟩ := h r.pos
  have hlen : 0 < l.length := List.length_pos.2 hne
  have hlenq : (0:ℚ) < (l.length : ℚ) := by exact_mod_cast hlen
  have hidx : ⌊(l.length : ℚ) * r.src r.pos⌋.toNat < l.length := by
    have hx : (l.length : ℚ) * r.src r.pos < (l.length : ℚ) * 1 :=
      mul_lt_mul_of_pos_left h1 hlenq
    have hfl : ⌊(l.length : ℚ) * r.src r.pos⌋ < (l.length : ℤ) := by
      apply Int.floor_lt.2
      push_cast
      linarith
    have hf0 : (0:ℤ) ≤ ⌊(l.length : ℚ) * r.src r.pos⌋ :=
      Int.floor_nonneg.2 (mul_nonneg (le_of_lt hlenq) h0)
    omega
  simp only [pyChoice, Rng.next]
  rw [List.getD_eq_getElem l d hidx]
  exact List.getElem_mem hidx

lemma round_mono_q {x y : ℚ} (h : x ≤ y) : round x ≤ round y := by
  rw [round_eq, round_eq]
  exact Int.floor_mono (by linarith)

lemma roundDec_le (d : ℕ) (x : ℚ) (n : ℤ) (h : x ≤ (n : ℚ) / 10 ^ d) :
    roundDec d x ≤ (n : ℚ) / 10 ^ d := by
  unfold roundDec
  have h10 : (0:ℚ) < 10 ^ d := by positivity
  rw [div_le_div_iff_of_pos_right h10, Int.cast_le]
  calc round (x * 10 ^ d) ≤ round ((n : ℚ)) := round_mono_q (by
        rw [← le_div_iff h10]
        exact h)
    _ = n := round_intCast n

lemma roundDec_ge (d : ℕ) (x : ℚ) (n : ℤ) (h : (n : ℚ) / 10 ^ d ≤ x) :
    (n : ℚ) / 10 ^ d ≤ roundDec d x := by
  unfold roundDec
  have h10 : (0:ℚ) < 10 ^ d := by positivity
  rw [div_le_div_iff_of_pos_right h10, Int.cast_le]
  calc (n : ℤ) = round ((n : ℚ)) := (round_intCast n).symm
    _ ≤ round (x * 10 ^ d) := round_mono_q (by
        rw [div_le_iff h10] at h
        exact h)

lemma roundDec_ge_num (d : ℕ) (x c : ℚ) (n : ℤ) (hc : c = (n : ℚ) / 10 ^ d)
    (h : c ≤ x) : c ≤ roundDec d x := by
  rw [hc] at h ⊢
  exact roundDec_ge d x n h

lemma roundDec_le_num (d : ℕ) (x c : ℚ) (n : ℤ) (hc : c = (n : ℚ) / 10 ^ d)
    (h : x ≤ c) : roundDec d x ≤ c := by
  rw [hc] at h ⊢
  exact roundDec_le d x n h

lemma baseline_bounds {t v pr : ℚ} (ht : 65 ≤ t ∧ t ≤ 80)
    (hvb : 1 / 100 ≤ v ∧ v ≤ 2 / 10) (hp : 98 ≤ pr ∧ pr ≤ 102) :
    (65 ≤ roundDec 1 t ∧ roundDec 1 t ≤ 80) ∧
    (1 / 100 ≤ roundDec 2 v ∧ roundDec 2 v ≤ 2 / 10) ∧
    (98 ≤ roundDec 1 pr ∧ roundDec 1 pr ≤ 102) := by
  refine ⟨⟨?_, ?_⟩, ⟨?_, ?_⟩, ⟨?_, ?_⟩⟩
  · exact roundDec_ge_num 1 t 65 650 (by norm_num) ht.1
  · exact roundDec_le_num 1 t 80 800 (by norm_num) ht.2
  · exact roundDec_ge_num 2 v (1 / 100) 1 (by norm_num) hvb.1
  · exact roundDec_le_num 2 v (2 / 10) 20 (by norm_num) hvb.2
  · exact roundDec_ge_num 1 pr 98 980 (by norm_num) hp.1
  · exact roundDec_le_num 1 pr 102 1020 (by norm_num) hp.2

lemma applyAnomalyCh_crit (ch : Channel) (t v pr : ℚ) (r : Rng) (hv : r.Valid)
    (ht : 65 ≤ t ∧ t ≤ 80) (hvb : 1 / 100 ≤ v ∧ v ≤ 2 / 10)
    (hp : 98 ≤ pr ∧ pr ≤ 102) (mid : String) (ts : ℤ) :
    (applyAnomalyCh ch true t v pr r).2.src = r.src ∧
    statusConsistent ⟨mid, ts, roundDec 1 (applyAnomalyCh ch true t v pr r).1.1,
      roundDec 2 (applyAnomalyCh ch true t v pr r).1.2.1,
      roundDec 1 (applyAnomalyCh ch true t v pr r).1.2.2, "CRIT"⟩ := by
  have hstr : ¬("CRIT" = "WARN") ∧ ¬("CRIT" = "AOK") := by decide
  cases ch
  · have hx := pyUniform_bounds 95 105 r hv (by norm_num)
    have hge := roundDec_ge_num 1 _ 95 950 (by norm_num) hx.1
    simp only [applyAnomalyCh, if_true, statusConsistent, critCond, warnCond, aokCond]
    exact ⟨rfl, fun _ => Or.inl hge, fun hco => absurd hco hstr.1,
      fun hco => absurd hco hstr.2⟩
  · have hx := pyUniform_bounds (8 / 10) (13 / 10) r hv (by norm_num)
    have hge := roundDec_ge_num 2 _ (8 / 10) 80 (by norm_num) hx.1
    simp only [applyAnomalyCh, if_true, statusConsistent, critCond, warnCond, aokCond]
    exact ⟨rfl, fun _ => Or.inr (Or.inl hge), fun hco => absurd hco hstr.1,
      fun hco => absurd hco hstr.2⟩
  · have hvc : (pyRandom r).2.Valid := valid_of_src_eq (pyRandom_src r) hv
    simp only [applyAnomalyCh, if_true, statusConsistent, critCond, warnCond, aokCond]
    by_cases hco : (pyRandom r).1 < 1 / 2
    · have hx := pyUniform_bounds 110 115 _ hvc (by norm_num)
      have hge := roundDec_ge_num 1 _ 110 1100 (by norm_num) hx.1
      simp only [if_pos hco]
      exact ⟨rfl, fun _ => Or.inr (Or.inr (Or.inl hge)),
        fun hc2 => absurd hc2 hstr.1, fun hc2 => absurd hc2 hstr.2⟩
    · have hx := pyUniform_bounds 87 92 _ hvc (by norm_num)
      have hle := roundDec_le_num 1 _ 92 920 (by norm_num) hx.2
      simp only [if_neg hco]
      exact ⟨rfl, fun _ => Or.inr (Or.inr (Or.inr hle)),
        fun hc2 => absurd hc2 hstr.1, fun hc2 => absurd hc2 hstr.2⟩

lemma applyAnomalyCh_warn (ch : Channel) (t v pr : ℚ) (r : Rng) (hv : r.Valid)
    (ht : 65 ≤ t ∧ t ≤ 80) (hvb : 1 / 100 ≤ v ∧ v ≤ 2 / 10)
    (hp : 98 ≤ pr ∧ pr ≤ 102) (mid : String) (ts : ℤ) :
    (applyAnomalyCh ch false t v pr r).2.src = r.src ∧
    statusConsistent ⟨mid, ts, roundDec 1 (applyAnomalyCh ch false t v pr r).1.1,
      roundDec 2 (applyAnomalyCh ch false t v pr r).1.2.1,
      roundDec 1 (applyAnomalyCh ch false t v pr r).1.2.2, "WARN"⟩ := by
  have hstr : ¬("WARN" = "CRIT") ∧ ¬("WARN" = "AOK") := by decide
  obtain ⟨hb1, hb2, hb3⟩ := baseline_bounds ht hvb hp
  cases ch
  · have hx := pyUniform_bounds 85 (949 / 10) r hv (by norm_num)
    have hge := roundDec_ge_num 1 _ 85 850 (by norm_num) hx.1
    have hle := roundDec_le_num 1 _ (949 / 10) 949 (by norm_num) hx.2
    simp only [applyAnomalyCh, Bool.false_eq_true, if_false, statusConsistent,
      critCond, warnCond, aokCond]
    refine ⟨rfl, fun hco => absurd hco hstr.1, fun _ => ⟨Or.inl ⟨hge, hle⟩, ?_⟩,
      fun hco => absurd hco hstr.2⟩
    rintro (h | h | h | h)
    · exact absurd h (by linarith)
    · exact absurd h (by linarith [hb2.2])
    · exact absurd h (by linarith [hb3.2])
    · exact absurd h (by linarith [hb3.1])
  · have hx := pyUniform_bounds (5 / 10) (79 / 100) r hv (by norm_num)
    have hge := roundDec_ge_num 2 _ (5 / 10) 50 (by norm_num) hx.1
    have hle := roundDec_le_num 2 _ (79 / 100) 79 (by norm_num) hx.2
    simp only [applyAnomalyCh, Bool.false_eq_true, if_false, statusConsistent,
      critCond, warnCond, aokCond]
    refine ⟨rfl, fun hco => absurd hco hstr.1,
      fun _ => ⟨Or.inr (Or.inl ⟨by linarith [hge], hle⟩), ?_⟩, fun hco => absurd hco hstr.2⟩
    rintro (h | h | h | h)
    · exact absurd h (by linarith [hb1.2])
    · exact absurd h (by linarith)
    · exact absurd h (by linarith [hb3.2])
    · exact absurd h (by linarith [hb3.1])
  · have hvc : (pyRandom r).2.Valid := valid_of_src_eq (pyRandom_src r) hv
    simp only [applyAnomalyCh, Bool.false_eq_true, if_false, statusConsistent,
      critCond, warnCond, aokCond]
    by_cases hco : (pyRandom r).1 < 1 / 2
    · have hx := pyUniform_bounds 105 (1099 / 10) _ hvc (by norm_num)
      have hge := roundDec_ge_num 1 _ 105 1050 (by norm_num) hx.1
      have hle := roundDec_le_num 1 _ (1099 / 10) 1099 (by norm_num) hx.2
      simp only [if_pos hco]
      refine ⟨rfl, fun hc2 => absurd hc2 hstr.1,
        fun _ => ⟨Or.inr (Or.inr (Or.inl ⟨hge, hle⟩)), ?_⟩,
        fun hc2 => absurd hc2 hstr.2⟩
      rintro (h | h | h | h)
      · exact absurd h (by linarith [hb1.2])
      · exact absurd h (by linarith [hb2.2])
      · exact absurd h (by linarith)
      · exact absurd h (by linarith)
    · have hx := pyUniform_bounds (921 / 10) 95 _ hvc (by norm_num)
      have hge := roundDec_ge_num 1 _ (921 / 10) 921 (by norm_num) hx.1
      have hle := roundDec_le_num 1 _ 95 950 (by norm_num) hx.2
      simp only [if_neg hco]
      refine ⟨rfl, fun hc2 => absurd hc2 hstr.1,
        fun _ => ⟨Or.inr (Or.inr (Or.inr ⟨hge, hle⟩)), ?_⟩,
        fun hc2 => absurd hc2 hstr.2⟩
      rintro (h | h | h | h)
      · exact absurd h (by linarith [hb1.2])
      · exact absurd h (by linarith [hb2.2])
      · exact absurd h (by linarith)
      · exact absurd h (by linarith)

lemma genStep_spec (R : ℕ) (p : ℚ) (st : GenState) (i : ℕ)
    (hv : st.rng.Valid) (hne : st.avail ≠ []) :
    ∃ (mid : String) (dt : ℤ) (rng' : Rng) (t v pr : ℚ) (status : String),
      mid ∈ st.avail ∧ 1 ≤ dt ∧ dt ≤ ((15 + i / 10 : ℕ) : ℤ) ∧
      rng'.src = st.rng.src ∧
      statusConsistent ⟨mid, ⌊st.time + (dt : ℚ)⌋, roundDec 1 t, roundDec 2 v,
        roundDec 1 pr, status⟩ ∧
      genStep R p st i = mkNext st R mid (st.time + (dt : ℚ)) rng' t v pr status := by
  obtain ⟨rng0, time0, counts0, avail0, data0⟩ := st
  dsimp only at hv hne ⊢
  cases avail0 with
  | nil => exact absurd rfl hne
  | cons a0 l0 =>
  simp only [genStep]
  have hvC : (pyChoice (a0 :: l0) "" rng0).2.Valid := valid_of_src_eq rfl hv
  have hmem : (pyChoice (a0 :: l0) "" rng0).1 ∈ a0 :: l0 := pyChoice_mem _ _ _ hv (by simp)
  have hdt := pyRandint_bounds 1 ((15 + i / 10 : ℕ) : ℤ) (pyChoice (a0 :: l0) "" rng0).2 hvC (by omega)
  by_cases hA : (pyRandom (pyRandint 1 ((15 + i / 10 : ℕ) : ℤ) (pyChoice (a0 :: l0) "" rng0).2).2).1 < p
  · rw [if_pos hA]
    have hT := pyUniform_bounds 65 80 (pyRandom (pyRandom (pyRandint 1 ((15 + i / 10 : ℕ) : ℤ) (pyChoice (a0 :: l0) "" rng0).2).2).2).2 (valid_of_src_eq rfl hv) (by norm_num)
    have hV := pyUniform_bounds (1 / 100) (2 / 10) (pyUniform 65 80 (pyRandom (pyRandom (pyRandint 1 ((15 + i / 10 : ℕ) : ℤ) (pyChoice (a0 :: l0) "" rng0).2).2).2).2).2
      (valid_of_src_eq rfl hv) (by norm_num)
    have hP := pyUniform_bounds 98 102 (pyUniform (1 / 100) (2 / 10) (pyUniform 65 80 (pyRandom (pyRandom (pyRandint 1 ((15 + i / 10 : ℕ) : ℤ) (pyChoice (a0 :: l0) "" rng0).2).2).2).2).2).2 (valid_of_src_eq rfl hv) (by norm_num)
    by_cases hC : (pyRandom (pyRandom (pyRandint 1 ((15 + i / 10 : ℕ) : ℤ) (pyChoice (a0 :: l0) "" rng0).2).2).2).1 < 3 / 10
    · rw [decide_eq_true hC]
      have happ := applyAnomalyCh_crit (pyChoice [Channel.temperature, Channel.vibration, Channel.pressure] Channel.temperature (pyUniform 98 102 (pyUniform (1 / 100) (2 / 10) (pyUniform 65 80 (pyRandom (pyRandom (pyRandint 1 ((15 + i / 10 : ℕ) : ℤ) (pyChoice (a0 :: l0) "" rng0).2).2).2).2).2).2).2).1 (pyUniform 65 80 (pyRandom (pyRandom (pyRandint 1 ((15 + i / 10 : ℕ) : ℤ) (pyChoice (a0 :: l0) "" rng0).2).2).2).2).1 (pyUniform (1 / 100) (2 / 10) (pyUniform 65 80 (pyRandom (pyRandom (pyRandint 1 ((15 + i / 10 : ℕ) : ℤ) (pyChoice (a0 :: l0) "" rng0).2).2).2).2).2).1 (pyUniform 98 102 (pyUniform (1 / 100) (2 / 10) (pyUniform 65 80 (pyRandom (pyRandom (pyRandint 1 ((15 + i / 10 : ℕ) : ℤ) (pyChoice (a0 :: l0) "" rng0).2).2).2).2).2).2).1 (pyChoice [Channel.temperature, Channel.vibration, Channel.pressure] Channel.temperature (pyUniform 98 102 (pyUniform (1 / 100) (2 / 10) (pyUniform 65 80 (pyRandom (pyRandom (pyRandint 1 ((15 + i / 10 : ℕ) : ℤ) (pyChoice (a0 :: l0) "" rng0).2).2).2).2).2).2).2).2
        (valid_of_src_eq rfl hv) hT hV hP
        (pyChoice (a0 :: l0) "" rng0).1 ⌊time0 + ((pyRandint 1 ((15 + i / 10 : ℕ) : ℤ) (pyChoice (a0 :: l0) "" rng0).2).1 : ℚ)⌋
      simp only [applyAnomaly]
      exact ⟨(pyChoice (a0 :: l0) "" rng0).1, (pyRandint 1 ((15 + i / 10 : ℕ) : ℤ) (pyChoice (a0 :: l0) "" rng0).2).1,
        (applyAnomalyCh (pyChoice [Channel.temperature, Channel.vibration, Channel.pressure] Channel.temperature (pyUniform 98 102 (pyUniform (1 / 100) (2 / 10) (pyUniform 65 80 (pyRandom (pyRandom (pyRandint 1 ((15 + i / 10 : ℕ) : ℤ) (pyChoice (a0 :: l0) "" rng0).2).2).2).2).2).2).2).1 true (pyUniform 65 80 (pyRandom (pyRandom (pyRandint 1 ((15 + i / 10 : ℕ) : ℤ) (pyChoice (a0 :: l0) "" rng0).2).2).2).2).1 (pyUniform (1 / 100) (2 / 10) (pyUniform 65 80 (pyRandom (pyRandom (pyRandint 1 ((15 + i / 10 : ℕ) : ℤ) (pyChoice (a0 :: l0) "" rng0).2).2).2).2).2).1 (pyUniform 98 102 (pyUniform (1 / 100) (2 / 10) (pyUniform 65 80 (pyRandom (pyRandom (pyRandint 1 ((15 + i / 10 : ℕ) : ℤ) (pyChoice (a0 :: l0) "" rng0).2).2).2).2).2).2).1 (pyChoice [Channel.temperature, Channel.vibration, Channel.pressure] Channel.temperature (pyUniform 98 102 (pyUniform (1 / 100) (2 / 10) (pyUniform 65 80 (pyRandom (pyRandom (pyRandint 1 ((15 + i / 10 : ℕ) : ℤ) (pyChoice (a0 :: l0) "" rng0).2).2).2).2).2).2).2).2).2,
        (applyAnomalyCh (pyChoice [Channel.temperature, Channel.vibration, Channel.pressure] Channel.temperature (pyUniform 98 102 (pyUniform (1 / 100) (2 / 10) (pyUniform 65 80 (pyRandom (pyRandom (pyRandint 1 ((15 + i / 10 : ℕ) : ℤ) (pyChoice (a0 :: l0) "" rng0).2).2).2).2).2).2).2).1 true (pyUniform 65 80 (pyRandom (pyRandom (pyRandint 1 ((15 + i / 10 : ℕ) : ℤ) (pyChoice (a0 :: l0) "" rng0).2).2).2).2).1 (pyUniform (1 / 100) (2 / 10) (pyUniform 65 80 (pyRandom (pyRandom (pyRandint 1 ((15 + i / 10 : ℕ) : ℤ) (pyChoice (a0 :: l0) "" rng0).2).2).2).2).2).1 (pyUniform 98 102 (pyUniform (1 / 100) (2 / 10) (pyUniform 65 80 (pyRandom (pyRandom (pyRandint 1 ((15 + i / 10 : ℕ) : ℤ) (pyChoice (a0 :: l0) "" rng0).2).2).2).2).2).2).1 (pyChoice [Channel.temperature, Channel.vibration, Channel.pressure] Channel.temperature (pyUniform 98 102 (pyUniform (1 / 100) (2 / 10) (pyUniform 65 80 (pyRandom (pyRandom (pyRandint 1 ((15 + i / 10 : ℕ) : ℤ) (pyChoice (a0 :: l0) "" rng0).2).2).2).2).2).2).2).2).1.1,
        (applyAnomalyCh (pyChoice [Channel.temperature, Channel.vibration, Channel.pressure] Channel.temperature (pyUniform 98 102 (pyUniform (1 / 100) (2 / 10) (pyUniform 65 80 (pyRandom (pyRandom (pyRandint 1 ((15 + i / 10 : ℕ) : ℤ) (pyChoice (a0 :: l0) "" rng0).2).2).2).2).2).2).2).1 true (pyUniform 65 80 (pyRandom (pyRandom (pyRandint 1 ((15 + i / 10 : ℕ) : ℤ) (pyChoice (a0 :: l0) "" rng0).2).2).2).2).1 (pyUniform (1 / 100) (2 / 10) (pyUniform 65 80 (pyRandom (pyRandom (pyRandint 1 ((15 + i / 10 : ℕ) : ℤ) (pyChoice (a0 :: l0) "" rng0).2).2).2).2).2).1 (pyUniform 98 102 (pyUniform (1 / 100) (2 / 10) (pyUniform 65 80 (pyRandom (pyRandom (pyRandint 1 ((15 + i / 10 : ℕ) : ℤ) (pyChoice (a0 :: l0) "" rng0).2).2).2).2).2).2).1 (pyChoice [Channel.temperature, Channel.vibration, Channel.pressure] Channel.temperature (pyUniform 98 102 (pyUniform (1 / 100) (2 / 10) (pyUniform 65 80 (pyRandom (pyRandom (pyRandint 1 ((15 + i / 10 : ℕ) : ℤ) (pyChoice (a0 :: l0) "" rng0).2).2).2).2).2).2).2).2).1.2.1,
        (applyAnomalyCh (pyChoice [Channel.temperature, Channel.vibration, Channel.pressure] Channel.temperature (pyUniform 98 102 (pyUniform (1 / 100) (2 / 10) (pyUniform 65 80 (pyRandom (pyRandom (pyRandint 1 ((15 + i / 10 : ℕ) : ℤ) (pyChoice (a0 :: l0) "" rng0).2).2).2).2).2).2).2).1 true (pyUniform 65 80 (pyRandom (pyRandom (pyRandint 1 ((15 + i / 10 : ℕ) : ℤ) (pyChoice (a0 :: l0) "" rng0).2).2).2).2).1 (pyUniform (1 / 100) (2 / 10) (pyUniform 65 80 (pyRandom (pyRandom (pyRandint 1 ((15 + i / 10 : ℕ) : ℤ) (pyChoice (a0 :: l0) "" rng0).2).2).2).2).2).1 (pyUniform 98 102 (pyUniform (1 / 100) (2 / 10) (pyUniform 65 80 (pyRandom (pyRandom (pyRandint 1 ((15 + i / 10 : ℕ) : ℤ) (pyChoice (a0 :: l0) "" rng0).2).2).2).2).2).2).1 (pyChoice [Channel.temperature, Channel.vibration, Channel.pressure] Channel.temperature (pyUniform 98 102 (pyUniform (1 / 100) (2 / 10) (pyUniform 65 80 (pyRandom (pyRandom (pyRandint 1 ((15 + i / 10 : ℕ) : ℤ) (pyChoice (a0 :: l0) "" rng0).2).2).2).2).2).2).2).2).1.2.2,
        "CRIT", hmem, hdt.1, hdt.2, happ.1.trans rfl, happ.2, rfl⟩
    · rw [decide_eq_false hC]
      have happ := applyAnomalyCh_warn (pyChoice [Channel.temperature, Channel.vibration, Channel.pressure] Channel.temperature (pyUniform 98 102 (pyUniform (1 / 100) (2 / 10) (pyUniform 65 80 (pyRandom (pyRandom (pyRandint 1 ((15 + i / 10 : ℕ) : ℤ) (pyChoice (a0 :: l0) "" rng0).2).2).2).2).2).2).2).1 (pyUniform 65 80 (pyRandom (pyRandom (pyRandint 1 ((15 + i / 10 : ℕ) : ℤ) (pyChoice (a0 :: l0) "" rng0).2).2).2).2).1 (pyUniform (1 / 100) (2 / 10) (pyUniform 65 80 (pyRandom (pyRandom (pyRandint 1 ((15 + i / 10 : ℕ) : ℤ) (pyChoice (a0 :: l0) "" rng0).2).2).2).2).2).1 (pyUniform 98 102 (pyUniform (1 / 100) (2 / 10) (pyUniform 65 80 (pyRandom (pyRandom (pyRandint 1 ((15 + i / 10 : ℕ) : ℤ) (pyChoice (a0 :: l0) "" rng0).2).2).2).2).2).2).1 (pyChoice [Channel.temperature, Channel.vibration, Channel.pressure] Channel.temperature (pyUniform 98 102 (pyUniform (1 / 100) (2 / 10) (pyUniform 65 80 (pyRandom (pyRandom (pyRandint 1 ((15 + i / 10 : ℕ) : ℤ) (pyChoice (a0 :: l0) "" rng0).2).2).2).2).2).2).2).2
        (valid_of_src_eq rfl hv) hT hV hP
        (pyChoice (a0 :: l0) "" rng0).1 ⌊time0 + ((pyRandint 1 ((15 + i / 10 : ℕ) : ℤ) (pyChoice (a0 :: l0) "" rng0).2).1 : ℚ)⌋
      simp only [applyAnomaly]
      exact ⟨(pyChoice (a0 :: l0) "" rng0).1, (pyRandint 1 ((15 + i / 10 : ℕ) : ℤ) (pyChoice (a0 :: l0) "" rng0).2).1,
        (applyAnomalyCh (pyChoice [Channel.temperature, Channel.vibration, Channel.pressure] Channel.temperature (pyUniform 98 102 (pyUniform (1 / 100) (2 / 10) (pyUniform 65 80 (pyRandom (pyRandom (pyRandint 1 ((15 + i / 10 : ℕ) : ℤ) (pyChoice (a0 :: l0) "" rng0).2).2).2).2).2).2).2).1 false (pyUniform 65 80 (pyRandom (pyRandom (pyRandint 1 ((15 + i / 10 : ℕ) : ℤ) (pyChoice (a0 :: l0) "" rng0).2).2).2).2).1 (pyUniform (1 / 100) (2 / 10) (pyUniform 65 80 (pyRandom (pyRandom (pyRandint 1 ((15 + i / 10 : ℕ) : ℤ) (pyChoice (a0 :: l0) "" rng0).2).2).2).2).2).1 (pyUniform 98 102 (pyUniform (1 / 100) (2 / 10) (pyUniform 65 80 (pyRandom (pyRandom (pyRandint 1 ((15 + i / 10 : ℕ) : ℤ) (pyChoice (a0 :: l0) "" rng0).2).2).2).2).2).2).1 (pyChoice [Channel.temperature, Channel.vibration, Channel.pressure] Channel.temperature (pyUniform 98 102 (pyUniform (1 / 100) (2 / 10) (pyUniform 65 80 (pyRandom (pyRandom (pyRandint 1 ((15 + i / 10 : ℕ) : ℤ) (pyChoice (a0 :: l0) "" rng0).2).2).2).2).2).2).2).2).2,
        (applyAnomalyCh (pyChoice [Channel.temperature, Channel.vibration, Channel.pressure] Channel.temperature (pyUniform 98 102 (pyUniform (1 / 100) (2 / 10) (pyUniform 65 80 (pyRandom (pyRandom (pyRandint 1 ((15 + i / 10 : ℕ) : ℤ) (pyChoice (a0 :: l0) "" rng0).2).2).2).2).2).2).2).1 false (pyUniform 65 80 (pyRandom (pyRandom (pyRandint 1 ((15 + i / 10 : ℕ) : ℤ) (pyChoice (a0 :: l0) "" rng0).2).2).2).2).1 (pyUniform (1 / 100) (2 / 10) (pyUniform 65 80 (pyRandom (pyRandom (pyRandint 1 ((15 + i / 10 : ℕ) : ℤ) (pyChoice (a0 :: l0) "" rng0).2).2).2).2).2).1 (pyUniform 98 102 (pyUniform (1 / 100) (2 / 10) (pyUniform 65 80 (pyRandom (pyRandom (pyRandint 1 ((15 + i / 10 : ℕ) : ℤ) (pyChoice (a0 :: l0) "" rng0).2).2).2).2).2).2).1 (pyChoice [Channel.temperature, Channel.vibration, Channel.pressure] Channel.temperature (pyUniform 98 102 (pyUniform (1 / 100) (2 / 10) (pyUniform 65 80 (pyRandom (pyRandom (pyRandint 1 ((15 + i / 10 : ℕ) : ℤ) (pyChoice (a0 :: l0) "" rng0).2).2).2).2).2).2).2).2).1.1,
        (applyAnomalyCh (pyChoice [Channel.temperature, Channel.vibration, Channel.pressure] Channel.temperature (pyUniform 98 102 (pyUniform (1 / 100) (2 / 10) (pyUniform 65 80 (pyRandom (pyRandom (pyRandint 1 ((15 + i / 10 : ℕ) : ℤ) (pyChoice (a0 :: l0) "" rng0).2).2).2).2).2).2).2).1 false (pyUniform 65 80 (pyRandom (pyRandom (pyRandint 1 ((15 + i / 10 : ℕ) : ℤ) (pyChoice (a0 :: l0) "" rng0).2).2).2).2).1 (pyUniform (1 / 100) (2 / 10) (pyUniform 65 80 (pyRandom (pyRandom (pyRandint 1 ((15 + i / 10 : ℕ) : ℤ) (pyChoice (a0 :: l0) "" rng0).2).2).2).2).2).1 (pyUniform 98 102 (pyUniform (1 / 100) (2 / 10) (pyUniform 65 80 (pyRandom (pyRandom (pyRandint 1 ((15 + i / 10 : ℕ) : ℤ) (pyChoice (a0 :: l0) "" rng0).2).2).2).2).2).2).1 (pyChoice [Channel.temperature, Channel.vibration, Channel.pressure] Channel.temperature (pyUniform 98 102 (pyUniform (1 / 100) (2 / 10) (pyUniform 65 80 (pyRandom (pyRandom (pyRandint 1 ((15 + i / 10 : ℕ) : ℤ) (pyChoice (a0 :: l0) "" rng0).2).2).2).2).2).2).2).2).1.2.1,
        (applyAnomalyCh (pyChoice [Channel.temperature, Channel.vibration, Channel.pressure] Channel.temperature (pyUniform 98 102 (pyUniform (1 / 100) (2 / 10) (pyUniform 65 80 (pyRandom (pyRandom (pyRandint 1 ((15 + i / 10 : ℕ) : ℤ) (pyChoice (a0 :: l0) "" rng0).2).2).2).2).2).2).2).1 false (pyUniform 65 80 (pyRandom (pyRandom (pyRandint 1 ((15 + i / 10 : ℕ) : ℤ) (pyChoice (a0 :: l0) "" rng0).2).2).2).2).1 (pyUniform (1 / 100) (2 / 10) (pyUniform 65 80 (pyRandom (pyRandom (pyRandint 1 ((15 + i / 10 : ℕ) : ℤ) (pyChoice (a0 :: l0) "" rng0).2).2).2).2).2).1 (pyUniform 98 102 (pyUniform (1 / 100) (2 / 10) (pyUniform 65 80 (pyRandom (pyRandom (pyRandint 1 ((15 + i / 10 : ℕ) : ℤ) (pyChoice (a0 :: l0) "" rng0).2).2).2).2).2).2).1 (pyChoice [Channel.temperature, Channel.vibration, Channel.pressure] Channel.temperature (pyUniform 98 102 (pyUniform (1 / 100) (2 / 10) (pyUniform 65 80 (pyRandom (pyRandom (pyRandint 1 ((15 + i / 10 : ℕ) : ℤ) (pyChoice (a0 :: l0) "" rng0).2).2).2).2).2).2).2).2).1.2.2,
        "WARN", hmem, hdt.1, hdt.2, happ.1.trans rfl, happ.2, rfl⟩
  · rw [if_neg hA]
    have hT := pyUniform_bounds 65 80 (pyRandom (pyRandint 1 ((15 + i / 10 : ℕ) : ℤ) (pyChoice (a0 :: l0) "" rng0).2).2).2 (valid_of_src_eq rfl hv) (by norm_num)
    have hV := pyUniform_bounds (1 / 100) (2 / 10) (pyUniform 65 80 (pyRandom (pyRandint 1 ((15 + i / 10 : ℕ) : ℤ) (pyChoice (a0 :: l0) "" rng0).2).2).2).2
      (valid_of_src_eq rfl hv) (by norm_num)
    have hP := pyUniform_bounds 98 102 (pyUniform (1 / 100) (2 / 10) (pyUniform 65 80 (pyRandom (pyRandint 1 ((15 + i / 10 : ℕ) : ℤ) (pyChoice (a0 :: l0) "" rng0).2).2).2).2).2 (valid_of_src_eq rfl hv) (by norm_num)
    obtain ⟨hb1, hb2, hb3⟩ := baseline_bounds hT hV hP
    have hs1 : ¬("AOK" = "CRIT") := by decide
    have hs2 : ¬("AOK" = "WARN") := by decide
    exact ⟨(pyChoice (a0 :: l0) "" rng0).1, (pyRandint 1 ((15 + i / 10 : ℕ) : ℤ) (pyChoice (a0 :: l0) "" rng0).2).1, (pyUniform 98 102 (pyUniform (1 / 100) (2 / 10) (pyUniform 65 80 (pyRandom (pyRandint 1 ((15 + i / 10 : ℕ) : ℤ) (pyChoice (a0 :: l0) "" rng0).2).2).2).2).2).2, (pyUniform 65 80 (pyRandom (pyRandint 1 ((15 + i / 10 : ℕ) : ℤ) (pyChoice (a0 :: l0) "" rng0).2).2).2).1, (pyUniform (1 / 100) (2 / 10) (pyUniform 65 80 (pyRandom (pyRandint 1 ((15 + i / 10 : ℕ) : ℤ) (pyChoice (a0 :: l0) "" rng0).2).2).2).2).1, (pyUniform 98 102 (pyUniform (1 / 100) (2 / 10) (pyUniform 65 80 (pyRandom (pyRandint 1 ((15 + i / 10 : ℕ) : ℤ) (pyChoice (a0 :: l0) "" rng0).2).2).2).2).2).1, "AOK",
      hmem, hdt.1, hdt.2, rfl,
      ⟨fun hco => absurd hco hs1, fun hco => absurd hco hs2,
        fun _ => ⟨hb1, hb2, hb3⟩⟩, rfl⟩

lemma genStep_nil (R : ℕ) (p : ℚ) (st : GenState) (i : ℕ) (h : st.avail = []) :
    genStep R p st i = st := by
  obtain ⟨rng0, time0, counts0, avail0, data0⟩ := st
  dsimp only at h
  subst h
  rfl

lemma loopState_succ (R : ℕ) (p : ℚ) (machines : List String) (start : ℚ)
    (rng : Rng) (n : ℕ) :
    loopState R p machines start rng (n + 1) =
    genStep R p (loopState R p machines start rng n) n := by
  unfold loopState
  rw [List.range_succ, List.foldl_append, List.foldl_cons, List.foldl_nil]

lemma mkNext_data (st : GenState) (R : ℕ) (mid : String) (time : ℚ) (rng : Rng)
    (t v pr : ℚ) (status : String) :
    (mkNext st R mid time rng t v pr status).data =
    st.data ++ [⟨mid, ⌊time⌋, roundDec 1 t, roundDec 2 v, roundDec 1 pr, status⟩] := rfl

lemma mkNext_rng (st : GenState) (R : ℕ) (mid : String) (time : ℚ) (rng : Rng)
    (t v pr : ℚ) (status : String) :
    (mkNext st R mid time rng t v pr status).rng = rng := rfl

lemma mkNext_time (st : GenState) (R : ℕ) (mid : String) (time : ℚ) (rng : Rng)
    (t v pr : ℚ) (status : String) :
    (mkNext st R mid time rng t v pr status).time = time := rfl

lemma mkNext_counts (st : GenState) (R : ℕ) (mid : String) (time : ℚ) (rng : Rng)
    (t v pr : ℚ) (status : String) :
    (mkNext st R mid time rng t v pr status).counts =
    fun m => if m = mid then st.counts m + 1 else st.counts m := rfl

lemma mkNext_avail (st : GenState) (R : ℕ) (mid : String) (time : ℚ) (rng : Rng)
    (t v pr : ℚ) (status : String) :
    (mkNext st R mid time rng t v pr status).avail =
    if R ≤ st.counts mid + 1 then st.avail.erase mid else st.avail := by
  unfold mkNext
  simp

lemma loop_status (R : ℕ) (p : ℚ) (machines : List String) (start : ℚ) (rng : Rng)
    (hv : rng.Valid) (n : ℕ) :
    (loopState R p machines start rng n).rng.Valid ∧
    ∀ rec ∈ (loopState R p machines start rng n).data, statusConsistent rec := by
  induction n with
  | zero =>
    refine ⟨hv, ?_⟩
    intro rec hrec
    simp only [loopState, List.range_zero, List.foldl_nil, initState] at hrec
    cases hrec
  | succ n ih =>
    rw [loopState_succ]
    by_cases hne : (loopState R p machines start rng n).avail = []
    · rw [genStep_nil _ _ _ _ hne]
      exact ih
    · obtain ⟨mid, dt, rng2, t, v, pr, status, hmem, hd1, hd2, hsrc, hcons, heq⟩ :=
        genStep_spec R p _ n ih.1 hne
      rw [heq]
      refine ⟨valid_of_src_eq hsrc ih.1, ?_⟩
      intro rec hrec
      rw [mkNext_data] at hrec
      rcases List.mem_append.1 hrec with h | h
      · exact ih.2 rec h
      · rw [List.mem_singleton] at h
        subst h
        exact hcons

lemma loop_time (R : ℕ) (p : ℚ) (machines : List String) (start : ℚ) (rng : Rng)
    (hv : rng.Valid) (total n : ℕ) :
    n ≤ total →
    start ≤ (loopState R p machines start rng n).time ∧
    (loopState R p machines start rng n).time ≤
      start + ((n * (15 + total / 10) : ℕ) : ℚ) ∧
    (∀ rec ∈ (loopState R p machines start rng n).data,
      ⌊start⌋ + 1 ≤ rec.timestamp ∧
      rec.timestamp ≤ ⌊(loopState R p machines start rng n).time⌋) ∧
    (loopState R p machines start rng n).data.Pairwise
      (fun a b => a.timestamp < b.timestamp) := by
  induction n with
  | zero =>
    intro _
    refine ⟨le_refl _, by simp [loopState, initState], ?_, ?_⟩
    · intro rec hrec
      simp only [loopState, List.range_zero, List.foldl_nil, initState] at hrec
      cases hrec
    · simp only [loopState, List.range_zero, List.foldl_nil, initState]
      exact List.Pairwise.nil
  | succ n ih =>
    intro hn1
    obtain ⟨h1, h2, h3, h4⟩ := ih (by omega)
    have hvn := (loop_status R p machines start rng hv n).1
    rw [loopState_succ]
    by_cases hne : (loopState R p machines start rng n).avail = []
    · rw [genStep_nil _ _ _ _ hne]
      refine ⟨h1, le_trans h2 ?_, h3, h4⟩
      have hmono : (n * (15 + total / 10) : ℕ) ≤ ((n + 1) * (15 + total / 10) : ℕ) :=
        Nat.mul_le_mul_right _ (by omega)
      have : ((n * (15 + total / 10) : ℕ) : ℚ) ≤ (((n + 1) * (15 + total / 10) : ℕ) : ℚ) := by
        exact_mod_cast hmono
      linarith
    · obtain ⟨mid, dt, rng2, t, v, pr, status, hmem, hdt1, hdt2, hsrc, hcons, heq⟩ :=
        genStep_spec R p _ n hvn hne
      rw [heq, mkNext_time, mkNext_data]
      have hdtq1 : (1 : ℚ) ≤ (dt : ℚ) := by exact_mod_cast hdt1
      have hKnat : (15 + n / 10 : ℕ) ≤ (15 + total / 10 : ℕ) := by omega
      have hdtq2 : (dt : ℚ) ≤ ((15 + total / 10 : ℕ) : ℚ) := by
        have hz : (dt : ℤ) ≤ ((15 + total / 10 : ℕ) : ℤ) :=
          le_trans hdt2 (by exact_mod_cast hKnat)
        have hq : ((dt : ℤ) : ℚ) ≤ (((15 + total / 10 : ℕ) : ℤ) : ℚ) :=
          Int.cast_le.mpr hz
        push_cast at hq ⊢
        exact hq
      refine ⟨by linarith, ?_, ?_, ?_⟩
      · have hcast : (((n + 1) * (15 + total / 10) : ℕ) : ℚ) =
            ((n * (15 + total / 10) : ℕ) : ℚ) + ((15 + total / 10 : ℕ) : ℚ) := by
          push_cast
          ring
        rw [hcast]
        linarith
      · intro rec hrec
        rcases List.mem_append.1 hrec with h | h
        · have hh := h3 rec h
          have hfl : ⌊(loopState R p machines start rng n).time⌋ ≤
              ⌊(loopState R p machines start rng n).time + (dt : ℚ)⌋ :=
            Int.floor_mono (by linarith)
          exact ⟨hh.1, le_trans hh.2 hfl⟩
        · rw [List.mem_singleton] at h
          subst h
          dsimp only
          rw [Int.floor_add_int]
          have hfs : ⌊start⌋ ≤ ⌊(loopState R p machines start rng n).time⌋ :=
            Int.floor_mono h1
          omega
      · rw [List.pairwise_append]
        refine ⟨h4, List.pairwise_singleton _ _, ?_⟩
        intro a ha b hb
        rw [List.mem_singleton] at hb
        subst hb
        have hub := (h3 a ha).2
        dsimp only
        rw [Int.floor_add_int]
        omega

lemma sum_map_const (l : List String) (c : ℕ) : (l.map fun _ => c).sum = c * l.length := by
  induction l with
  | nil => simp
  | cons a t ih =>
    simp only [List.map_cons, List.sum_cons, ih, List.length_cons, Nat.mul_succ]
    ring

lemma sum_map_update (machines : List String) (hnd : machines.Nodup) (f : String → ℕ)
    (mid : String) (hm : mid ∈ machines) :
    (machines.map fun m => if m = mid then f m + 1 else f m).sum =
    (machines.map f).sum + 1 := by
  induction machines with
  | nil => cases hm
  | cons a l ih =>
    rcases List.mem_cons.1 hm with h | h
    · subst h
      have hnotin : mid ∉ l := (List.nodup_cons.1 hnd).1
      simp only [List.map_cons, List.sum_cons, eq_self_iff_true, if_true]
      have hcongr : (l.map fun m => if m = mid then f m + 1 else f m) = l.map f :=
        List.map_congr_left (fun m hm2 => by
          rw [if_neg]
          intro he
          exact hnotin (he ▸ hm2))
      rw [hcongr]
      omega
    · have hne : a ≠ mid := by
        rintro rfl
        exact (List.nodup_cons.1 hnd).1 h
      simp only [List.map_cons, List.sum_cons, if_neg hne]
      rw [ih (List.nodup_cons.1 hnd).2 h]
      omega

lemma sum_le_of_all_le (l : List String) (f : String → ℕ) (R : ℕ)
    (hb : ∀ m ∈ l, f m ≤ R) : (l.map f).sum ≤ R * l.length := by
  induction l with
  | nil => simp
  | cons a t ih =>
    simp only [List.map_cons, List.sum_cons, List.length_cons, Nat.mul_succ]
    have h1 := hb a (List.mem_cons_self a t)
    have h2 := ih (fun m hm => hb m (List.mem_cons_of_mem a hm))
    omega

lemma all_eq_of_sum (l : List String) (f : String → ℕ) (R : ℕ)
    (hb : ∀ m ∈ l, f m ≤ R) (hs : (l.map f).sum = R * l.length) :
    ∀ m ∈ l, f m = R := by
  induction l with
  | nil =>
    intro m hm
    cases hm
  | cons a t ih =>
    simp only [List.map_cons, List.sum_cons, List.length_cons, Nat.mul_succ] at hs
    have hsle := sum_le_of_all_le t f R (fun m hm => hb m (List.mem_cons_of_mem a hm))
    have hfa : f a = R := by
      have := hb a (List.mem_cons_self a t)
      omega
    intro m hm
    rcases List.mem_cons.1 hm with h | h
    · rw [h]
      exact hfa
    · exact ih (fun m2 hm2 => hb m2 (List.mem_cons_of_mem a hm2)) (by omega) m h

lemma loop_count (R : ℕ) (p : ℚ) (machines : List String) (start : ℚ) (rng : Rng)
    (hv : rng.Valid) (hnd : machines.Nodup) (hR : 0 < R) (n : ℕ) :
    n ≤ R * machines.length →
    (∀ m, m ∈ (loopState R p machines start rng n).avail ↔
      m ∈ machines ∧ (loopState R p machines start rng n).counts m < R) ∧
    (loopState R p machines start rng n).avail.Nodup ∧
    (∀ m, m ∉ machines → (loopState R p machines start rng n).counts m = 0) ∧
    (∀ m, (loopState R p machines start rng n).counts m ≤ R) ∧
    (machines.map (loopState R p machines start rng n).counts).sum = n ∧
    (loopState R p machines start rng n).data.length = n ∧
    (∀ m, ((loopState R p machines start rng n).data.filter
      (fun rec => rec.machine_id = m)).length =
      (loopState R p machines start rng n).counts m) := by
  induction n with
  | zero =>
    intro _
    simp only [loopState, List.range_zero, List.foldl_nil, initState]
    refine ⟨fun m => ⟨fun hm => ⟨hm, hR⟩, fun hm => hm.1⟩, hnd, fun m _ => by trivial,
      fun m => by omega, ?_, by trivial, fun m => by trivial⟩
    rw [show (machines.map fun _ => 0).sum = 0 * machines.length from
      sum_map_const machines 0]
    omega
  | succ n ih =>
    intro hn1
    obtain ⟨hiff, hnda, hout, hle, hsum, hlen, hfil⟩ := ih (by omega)
    have hvn := (loop_status R p machines start rng hv n).1
    have hne : (loopState R p machines start rng n).avail ≠ [] := by
      intro h0
      have hallR : ∀ m ∈ machines, (loopState R p machines start rng n).counts m = R := by
        intro m hm
        have h1 := (hiff m).2
        have h2 : m ∉ ([] : List String) := List.not_mem_nil m
        rw [h0] at h1
        have h3 : ¬((loopState R p machines start rng n).counts m < R) := by
          intro hlt
          exact h2 (h1 ⟨hm, hlt⟩)
        have := hle m
        omega
      have hsum2 : (machines.map (loopState R p machines start rng n).counts).sum =
          R * machines.length := by
        rw [List.map_congr_left hallR]
        exact sum_map_const machines R
      omega
    obtain ⟨mid, dt, rng2, t, v, pr, status, hmem, hdt1, hdt2, hsrc, hcons, heq⟩ :=
      genStep_spec R p _ n hvn hne
    have hmidm : mid ∈ machines := ((hiff mid).1 hmem).1
    have hmidlt : (loopState R p machines start rng n).counts mid < R :=
      ((hiff mid).1 hmem).2
    rw [loopState_succ, heq, mkNext_avail, mkNext_counts, mkNext_data]
    dsimp only
    refine ⟨?_, ?_, ?_, ?_, ?_, ?_, ?_⟩
    · intro m
      by_cases hm : m = mid
      · subst hm
        by_cases hq : R ≤ (loopState R p machines start rng n).counts m + 1
        · rw [if_pos hq]
          simp only [eq_self_iff_true, if_true]
          constructor
          · intro hmm
            exact absurd hmm (hnda.not_mem_erase)
          · intro hmm
            omega
        · rw [if_neg hq]
          simp only [eq_self_iff_true, if_true]
          constructor
          · intro _
            exact ⟨hmidm, by omega⟩
          · intro _
            exact hmem
      · have hifc : (if m = mid then (loopState R p machines start rng n).counts m + 1
            else (loopState R p machines start rng n).counts m) =
            (loopState R p machines start rng n).counts m := if_neg hm
        rw [hifc]
        by_cases hq : R ≤ (loopState R p machines start rng n).counts mid + 1
        · rw [if_pos hq, List.mem_erase_of_ne hm]
          exact hiff m
        · rw [if_neg hq]
          exact hiff m
    · by_cases hq : R ≤ (loopState R p machines start rng n).counts mid + 1
      · rw [if_pos hq]
        exact hnda.erase mid
      · rw [if_neg hq]
        exact hnda
    · intro m hm
      have hne2 : m ≠ mid := by
        rintro rfl
        exact hm hmidm
      rw [if_neg hne2]
      exact hout m hm
    · intro m
      by_cases hm : m = mid
      · subst hm
        simp only [eq_self_iff_true, if_true]
        omega
      · rw [if_neg hm]
        exact hle m
    · rw [sum_map_update machines hnd _ mid hmidm, hsum]
    · rw [List.length_append, hlen]
      rfl
    · intro m
      rw [List.filter_append, List.length_append, hfil m]
      by_cases hm : m = mid
      · subst hm
        simp
      · have hm2 : ¬(mid = m) := fun he => hm he.symm
        simp [hm, hm2]

instance : IsTotal SensorRecord (fun a b => a.timestamp ≤ b.timestamp) :=
  ⟨fun a b => le_total a.timestamp b.timestamp⟩

instance : IsTrans SensorRecord (fun a b => a.timestamp ≤ b.timestamp) :=
  ⟨fun _ _ _ hab hbc => le_trans hab hbc⟩

/-- Claim C1: every record produced by `generate_sensor_data` satisfies the
status/value consistency property: a `CRIT` row has at least one critical
reading, a `WARN` row has at least one warning-range reading and no
critical one, and an `AOK` row has all three channels in their baseline
ranges (after rounding temperature and pressure to 1 decimal and vibration
to 2 decimals). -/
theorem claim_C1 (R : ℕ) (machines : List String) (p : ℚ) (start : ℚ) (rng : Rng)
    (hv : rng.Valid) :
    ∀ rec ∈ generate_sensor_data R machines p start rng, statusConsistent rec := by
  intro rec hrec
  exact (loop_status R p machines start rng hv (R * machines.length)).2 rec
    ((List.perm_insertionSort _ _).mem_iff.1 hrec)

/-- The all-zero random source used to instantiate theorems at a concrete
input. -/
def zeroRng : Rng := ⟨fun _ => 0, 0⟩

lemma zeroRng_valid : zeroRng.Valid := fun _ => ⟨le_refl 0, by norm_num [zeroRng]⟩

/-- Witness for claim C1 at a concrete input. -/
theorem claim_C1_witness :
    zeroRng.Valid ∧
    ∀ rec ∈ generate_sensor_data 1 ["M001"] 0 0 zeroRng, statusConsistent rec :=
  ⟨zeroRng_valid, claim_C1 1 ["M001"] 0 0 zeroRng zeroRng_valid⟩

/-- Claim C2: with a duplicate-free non-empty machine list and
`records_per_machine = R > 0`, the batch has exactly `R * M` records and
exactly `R` records per machine; in particular no machine is ever sampled
beyond its quota. -/
theorem claim_C2 (R : ℕ) (machines : List String) (p : ℚ) (start : ℚ) (rng : Rng)
    (hv : rng.Valid) (hnd : machines.Nodup) (hne : machines ≠ []) (hR : 0 < R) :
    (generate_sensor_data R machines p start rng).length = R * machines.length ∧
    ∀ m ∈ machines, ((generate_sensor_data R machines p start rng).filter
      (fun rec => rec.machine_id = m)).length = R := by
  obtain ⟨hiff, hnda, hout, hle, hsum, hlen, hfil⟩ :=
    loop_count R p machines start rng hv hnd hR (R * machines.length) (le_refl _)
  simp only [generate_sensor_data, genFinal]
  have hperm := List.perm_insertionSort
    (fun a b : SensorRecord => a.timestamp ≤ b.timestamp)
    (loopState R p machines start rng (R * machines.length)).data
  constructor
  · rw [hperm.length_eq]
    exact hlen
  · intro m hm
    rw [(hperm.filter _).length_eq, hfil m]
    exact all_eq_of_sum machines
      (loopState R p machines start rng (R * machines.length)).counts R
      (fun m2 _ => hle m2) hsum m hm

/-- Witness for claim C2 at a concrete input. -/
theorem claim_C2_witness :
    zeroRng.Valid ∧ (["M001"] : List String).Nodup ∧ (["M001"] : List String) ≠ [] ∧
    0 < 1 ∧
    ((generate_sensor_data 1 ["M001"] 0 0 zeroRng).length = 1 * (["M001"] : List String).length ∧
    ∀ m ∈ (["M001"] : List String), ((generate_sensor_data 1 ["M001"] 0 0 zeroRng).filter
      (fun rec => rec.machine_id = m)).length = 1) :=
  ⟨zeroRng_valid, by decide, by decide, by decide,
    claim_C2 1 ["M001"] 0 0 zeroRng zeroRng_valid (by decide) (by decide) (by decide)⟩

/-- Claim C3: when the entry point resumes from a recovered last timestamp
`T`, the new batch starts at `T` plus a random 10 to 30 seconds, the first
clock advance adds at least one further second, and hence every row (in
particular the earliest) of the new batch has a timestamp strictly greater
than `T`. -/
theorem claim_C3 (T : ℤ) (rng : Rng) (hv : rng.Valid) (R : ℕ)
    (machines : List String) (p : ℚ) :
    (∃ d : ℤ, 10 ≤ d ∧ d ≤ 30 ∧ (mainStart T rng).1 = (T : ℚ) + (d : ℚ)) ∧
    ∀ rec ∈ generate_sensor_data R machines p (mainStart T rng).1 (mainStart T rng).2,
      T < rec.timestamp := by
  have hd := pyRandint_bounds 10 30 rng hv (by norm_num)
  constructor
  · exact ⟨(pyRandint 10 30 rng).1, hd.1, hd.2, rfl⟩
  · intro rec hrec
    have hv2 : (mainStart T rng).2.Valid := valid_of_src_eq rfl hv
    have hrec2 : rec ∈ (genFinal R machines p (mainStart T rng).1 (mainStart T rng).2).data :=
      (List.perm_insertionSort _ _).mem_iff.1 hrec
    have hlb := ((loop_time R p machines (mainStart T rng).1 (mainStart T rng).2 hv2
      (R * machines.length) (R * machines.length) (le_refl _)).2.2.1 rec hrec2).1
    have hfe : (mainStart T rng).1 = ((T + (pyRandint 10 30 rng).1 : ℤ) : ℚ) := by
      show (T : ℚ) + ((pyRandint 10 30 rng).1 : ℚ) = _
      push_cast
      ring
    have hfloor : ⌊(mainStart T rng).1⌋ = T + (pyRandint 10 30 rng).1 := by
      rw [hfe, Int.floor_intCast]
    omega

/-- Witness for claim C3 at a concrete input. -/
theorem claim_C3_witness :
    zeroRng.Valid ∧
    ∀ rec ∈ generate_sensor_data 1 ["M001"] 0 (mainStart 0 zeroRng).1
      (mainStart 0 zeroRng).2, (0 : ℤ) < rec.timestamp :=
  ⟨zeroRng_valid, (claim_C3 0 zeroRng zeroRng_valid 1 ["M001"] 0).2⟩

/-- Claim C7: before emitting the `i`-th reading (with `i` the number of
readings emitted so far), the loop advances the running clock by an
integer number of seconds between 1 and `15 + i / 10` inclusive. -/
theorem claim_C7 (R : ℕ) (p : ℚ) (st : GenState) (i : ℕ) (hv : st.rng.Valid)
    (hne : st.avail ≠ []) (hlen : st.data.length = i) :
    ∃ dt : ℤ, 1 ≤ dt ∧ dt ≤ 15 + ((i / 10 : ℕ) : ℤ) ∧
      (genStep R p st i).time = st.time + (dt : ℚ) := by
  obtain ⟨mid, dt, rng2, t, v, pr, status, hmem, h1, h2, hsrc, hcons, heq⟩ :=
    genStep_spec R p st i hv hne
  refine ⟨dt, h1, ?_, by rw [heq, mkNext_time]⟩
  have : ((15 + i / 10 : ℕ) : ℤ) = 15 + ((i / 10 : ℕ) : ℤ) := by push_cast; ring
  omega

/-- Witness for claim C7 at a concrete input. -/
theorem claim_C7_witness :
    zeroRng.Valid ∧ (initState ["M001"] 0 zeroRng).avail ≠ [] ∧
    (initState ["M001"] 0 zeroRng).data.length = 0 ∧
    ∃ dt : ℤ, 1 ≤ dt ∧ dt ≤ 15 + ((0 / 10 : ℕ) : ℤ) ∧
      (genStep 1 0 (initState ["M001"] 0 zeroRng) 0).time =
        (initState ["M001"] 0 zeroRng).time + (dt : ℚ) :=
  ⟨zeroRng_valid, by simp [initState], rfl,
    claim_C7 1 0 (initState ["M001"] 0 zeroRng) 0 zeroRng_valid (by simp [initState]) rfl⟩

/-- Claim C8: the batch returned by `generate_sensor_data` is sorted by
timestamp: the timestamp column is non-decreasing row over row. -/
theorem claim_C8 (R : ℕ) (machines : List String) (p : ℚ) (start : ℚ) (rng : Rng) :
    (generate_sensor_data R machines p start rng).Sorted
      (fun a b => a.timestamp ≤ b.timestamp) :=
  List.sorted_insertionSort _ _

/-- Claim C9: within one batch the pre-sort record list already has
strictly increasing (hence pairwise distinct) timestamps, because every
clock advance is a whole second and formatting truncates to seconds, so
the final sort by timestamp is the identity. -/
theorem claim_C9 (R : ℕ) (machines : List String) (p : ℚ) (start : ℚ) (rng : Rng)
    (hv : rng.Valid) :
    (genFinal R machines p start rng).data.Pairwise
      (fun a b => a.timestamp < b.timestamp) ∧
    (genFinal R machines p start rng).data.Pairwise
      (fun a b => a.timestamp ≠ b.timestamp) ∧
    generate_sensor_data R machines p start rng = (genFinal R machines p start rng).data := by
  have hpw := (loop_time R p machines start rng hv (R * machines.length)
    (R * machines.length) (le_refl _)).2.2.2
  refine ⟨hpw, hpw.imp (fun h => ne_of_lt h), ?_⟩
  exact List.Sorted.insertionSort_eq (hpw.imp (fun h => le_of_lt h))

/-- Witness for claim C9 at a concrete input. -/
theorem claim_C9_witness :
    zeroRng.Valid ∧
    generate_sensor_data 1 ["M001"] 0 0 zeroRng = (genFinal 1 ["M001"] 0 0 zeroRng).data :=
  ⟨zeroRng_valid, (claim_C9 1 ["M001"] 0 0 zeroRng zeroRng_valid).2.2⟩

lemma findLatest_fold (files : List String) (acc : ℕ × Option String) :
    (files.foldl (fun acc f =>
      match regexBatchNum f with
      | none => acc
      | some nn => if acc.1 < nn then (nn, some f) else acc) acc).1 =
    (files.filterMap regexBatchNum).foldl max acc.1 := by
  induction files generalizing acc with
  | nil => rfl
  | cons f t ih =>
    simp only [List.foldl_cons, List.filterMap_cons]
    cases hreg : regexBatchNum f with
    | none =>
      simp only [hreg]
      exact ih acc
    | some nn =>
      simp only [hreg, List.foldl_cons]
      by_cases hlt : acc.1 < nn
      · rw [if_pos hlt, ih ⟨nn, some f⟩]
        congr 1
        omega
      · rw [if_neg hlt, ih acc]
        congr 1
        omega

lemma findLatest_eq_max (files : List String) :
    (findLatest files).1 = maxBatchNum files :=
  findLatest_fold files (0, none)

lemma findLatest_none_eq (files : List String) (acc : ℕ × Option String)
    (h : (files.foldl (fun acc f =>
      match regexBatchNum f with
      | none => acc
      | some nn => if acc.1 < nn then (nn, some f) else acc) acc).2 = none) :
    files.foldl (fun acc f =>
      match regexBatchNum f with
      | none => acc
      | some nn => if acc.1 < nn then (nn, some f) else acc) acc = acc := by
  induction files generalizing acc with
  | nil => rfl
  | cons f t ih =>
    simp only [List.foldl_cons] at h ⊢
    cases hreg : regexBatchNum f with
    | none =>
      simp only [hreg] at h ⊢
      exact ih acc h
    | some nn =>
      simp only [hreg] at h ⊢
      by_cases hlt : acc.1 < nn
      · rw [if_pos hlt] at h ⊢
        have h2 := ih _ h
        rw [h2] at h
        cases h
      · rw [if_neg hlt] at h ⊢
        exact ih acc h

lemma glbi_found (listing : List String)
    (readFile : String → Option (List (List String))) (now : ℤ) (N : ℕ) (f : String)
    (hfl : findLatest (listing.filter globMatch) = (N, some f)) :
    get_latest_batch_info true listing readFile now =
      readLastTimestamp N (readFile f) now := by
  unfold get_latest_batch_info
  have hne : (listing.filter globMatch).isEmpty = false := by
    cases hgl : listing.filter globMatch with
    | nil =>
      rw [hgl] at hfl
      cases hfl
    | cons a l => rfl
  simp only [Bool.not_true, Bool.false_eq_true, if_false, hne, hfl]

lemma findLatest_snd_none (files : List String)
    (h : (findLatest files).2 = none) : findLatest files = (0, none) := by
  unfold findLatest at h ⊢
  exact findLatest_none_eq files (0, none) h

/-- Claim C4 (amended): when `findLatest` actually selects a file `f` with
batch number `N` — which happens exactly when some matching file has batch
number at least 1, since the strict comparison at source line 22 never
selects a number-0 file — `N` is the maximum batch number, and every
failure mode of the read (unreadable file, empty file, short row,
unparseable timestamp) yields the fallback `(N + 1, now - one hour)`
without raising. -/
theorem claim_C4 (listing : List String)
    (readFile : String → Option (List (List String))) (now : ℤ) (N : ℕ) (f : String)
    (hfl : findLatest (listing.filter globMatch) = (N, some f)) :
    N = maxBatchNum (listing.filter globMatch) ∧
    (readFile f = none →
      get_latest_batch_info true listing readFile now =
        ⟨N + 1, some (now - 3600), false⟩) ∧
    (readFile f = some [] →
      get_latest_batch_info true listing readFile now =
        ⟨N + 1, some (now - 3600), false⟩) ∧
    (∀ hd body row, readFile f = some (hd :: body) → lastNonempty body = some row →
      row[1]? = none →
      get_latest_batch_info true listing readFile now =
        ⟨N + 1, some (now - 3600), false⟩) ∧
    (∀ hd body row cell, readFile f = some (hd :: body) → lastNonempty body = some row →
      row[1]? = some cell → parseTs (strReplaceZ cell) = none →
      get_latest_batch_info true listing readFile now =
        ⟨N + 1, some (now - 3600), false⟩) := by
  have hbase := glbi_found listing readFile now N f hfl
  refine ⟨by rw [← findLatest_eq_max, hfl], ?_, ?_, ?_, ?_⟩
  · intro h
    rw [hbase, h]
    rfl
  · intro h
    rw [hbase, h]
    rfl
  · intro hd body row h hlast hrow
    rw [hbase, h]
    simp only [readLastTimestamp, hlast, hrow]
  · intro hd body row cell h hlast hrow hcell
    rw [hbase, h]
    simp only [readLastTimestamp, hlast, hrow, hcell]

/-- Witness for claim C4 at a concrete input. -/
theorem claim_C4_witness :
    findLatest ((["sensor_data_batch_2.csv"] : List String).filter globMatch) =
      (2, some "sensor_data_batch_2.csv") ∧
    get_latest_batch_info true ["sensor_data_batch_2.csv"]
      (fun _ => (none : Option (List (List String)))) 7200 =
      ⟨2 + 1, some (7200 - 3600), false⟩ :=
  ⟨by decide, (claim_C4 ["sensor_data_batch_2.csv"] (fun _ => none) 7200 2
    "sensor_data_batch_2.csv" (by decide)).2.1 rfl⟩

/-- Counterexample for the frozen wording of claim C4: the only (hence
latest) batch file on disk is `sensor_data_batch_0.csv`, reading it fails,
yet the function returns `(1, None)` rather than the claimed
`(maxN + 1, now - one hour)`: the strict `>` against the initial value 0
never selects a number-0 file, so its read failure is invisible. -/
theorem claim_C4_counterexample :
    globMatch "sensor_data_batch_0.csv" = true ∧
    regexBatchNum "sensor_data_batch_0.csv" = some 0 ∧
    maxBatchNum ((["sensor_data_batch_0.csv"] : List String).filter globMatch) = 0 ∧
    get_latest_batch_info true ["sensor_data_batch_0.csv"]
      (fun _ => (none : Option (List (List String)))) 7200 = ⟨1, none, false⟩ ∧
    (⟨1, none, false⟩ : GLBResult) ≠ ⟨0 + 1, some (7200 - 3600), false⟩ := by
  decide

/-- Claim C5 (amended): the locator returns `(1, None)` and creates the
directory when it does not exist; it returns `(1, None)` when `findLatest`
selects no file (no name matches the pattern, or every matching file has
batch number 0, which the strict comparison never selects); and when it
does select a file `f` with number `N`, then `N` is the maximum batch
number and a successful read and parse of the last non-empty row's
timestamp column (Z suffix normalized) yields `(N + 1, that timestamp)`. -/
theorem claim_C5 (listing : List String)
    (readFile : String → Option (List (List String))) (now : ℤ) :
    get_latest_batch_info false listing readFile now = ⟨1, none, true⟩ ∧
    ((findLatest (listing.filter globMatch)).2 = none →
      get_latest_batch_info true listing readFile now = ⟨1, none, false⟩) ∧
    (∀ N f hd body row cell ts,
      findLatest (listing.filter globMatch) = (N, some f) →
      readFile f = some (hd :: body) →
      lastNonempty body = some row →
      row[1]? = some cell →
      parseTs (strReplaceZ cell) = some ts →
      N = maxBatchNum (listing.filter globMatch) ∧
      get_latest_batch_info true listing readFile now = ⟨N + 1, some ts, false⟩) := by
  refine ⟨rfl, ?_, ?_⟩
  · intro h2
    have hfl0 := findLatest_snd_none (listing.filter globMatch) h2
    simp only [get_latest_batch_info, Bool.not_true, Bool.false_eq_true, if_false]
    by_cases hemp : (listing.filter globMatch).isEmpty = true
    · rw [if_pos hemp]
    · rw [if_neg hemp, hfl0]
  · intro N f hd body row cell ts hfl hread hlast hrow hcell
    refine ⟨by rw [← findLatest_eq_max, hfl], ?_⟩
    rw [glbi_found listing readFile now N f hfl, hread]
    simp only [readLastTimestamp, hlast, hrow, hcell]

/-- The concrete listing, data row and reader used to instantiate the
locator theorems. -/
def wListing : List String := ["sensor_data_batch_3.csv"]

def wRow : List String := ["M001", "2024-01-01T00:00:00Z", "70/1", "1/10", "100/1", "AOK"]

def wRead : String → Option (List (List String)) :=
  fun f => if f = "sensor_data_batch_3.csv" then some [csvHeader, wRow] else none

/-- Witness for claim C5 at a concrete input. -/
theorem claim_C5_witness :
    findLatest (wListing.filter globMatch) = (3, some "sensor_data_batch_3.csv") ∧
    wRead "sensor_data_batch_3.csv" = some (csvHeader :: [wRow]) ∧
    lastNonempty [wRow] = some wRow ∧
    wRow[1]? = some "2024-01-01T00:00:00Z" ∧
    parseTs (strReplaceZ "2024-01-01T00:00:00Z") = some 1704067200 ∧
    3 = maxBatchNum (wListing.filter globMatch) ∧
    get_latest_batch_info true wListing wRead 0 = ⟨3 + 1, some 1704067200, false⟩ :=
  ⟨by decide, by decide, by decide, by decide, by decide,
    ((claim_C5 wListing wRead 0).2.2 3 "sensor_data_batch_3.csv" csvHeader [wRow] wRow
      "2024-01-01T00:00:00Z" 1704067200 (by decide) (by decide) (by decide) (by decide)
      (by decide)).1,
    ((claim_C5 wListing wRead 0).2.2 3 "sensor_data_batch_3.csv" csvHeader [wRow] wRow
      "2024-01-01T00:00:00Z" 1704067200 (by decide) (by decide) (by decide) (by decide)
      (by decide)).2⟩

def cexListing : List String := ["sensor_data_batch_0.csv"]

def cexRow : List String := ["M001", "2024-01-01T00:00:00Z", "70/1", "1/10", "100/1", "AOK"]

def cexRead : String → Option (List (List String)) :=
  fun f => if f = "sensor_data_batch_0.csv" then some [csvHeader, cexRow] else none

/-- Counterexample for the frozen wording of claim C5: the directory holds
exactly one matching file, `sensor_data_batch_0.csv` (so the maximum `N`
is 0), it is readable and its last row's timestamp parses to
1704067200, yet the function returns `(1, None)` instead of the claimed
`(N + 1, parsed timestamp)`: batch number 0 is never selected. -/
theorem claim_C5_counterexample :
    globMatch "sensor_data_batch_0.csv" = true ∧
    regexBatchNum "sensor_data_batch_0.csv" = some 0 ∧
    cexRead "sensor_data_batch_0.csv" = some [csvHeader, cexRow] ∧
    lastNonempty [cexRow] = some cexRow ∧
    cexRow[1]? = some "2024-01-01T00:00:00Z" ∧
    parseTs (strReplaceZ "2024-01-01T00:00:00Z") = some 1704067200 ∧
    get_latest_batch_info true cexListing cexRead 0 = ⟨1, none, false⟩ ∧
    (⟨1, none, false⟩ : GLBResult) ≠ ⟨0 + 1, some 1704067200, false⟩ := by
  decide

lemma write_csv_ok (fs : FileSys) (data : List SensorRecord) (filename : String)
    (h : dirname filename ≠ "") :
    write_csv fs data filename =
      Except.ok ⟨dirname filename :: fs.dirs, (filename, csvRows data) :: fs.files⟩ := by
  unfold write_csv makedirs
  rw [if_neg h]

/-- Claim C10: `write_csv` fails with `FileNotFoundError` (and returns no
filesystem, so no file is created) whenever the destination filename has
no directory component, because it unconditionally runs `makedirs` on the
dirname, which is empty for a bare filename; for a path with a non-empty
parent it succeeds and writes the file. -/
theorem claim_C10 (fs : FileSys) (data : List SensorRecord) (filename : String) :
    ((∀ c ∈ filename.data, c ≠ '/') →
      write_csv fs data filename = Except.error "FileNotFoundError") ∧
    (dirname filename ≠ "" →
      write_csv fs data filename =
        Except.ok ⟨dirname filename :: fs.dirs, (filename, csvRows data) :: fs.files⟩) := by
  constructor
  · intro h
    have hdrop : filename.data.reverse.dropWhile (fun c => c ≠ '/') = [] := by
      rw [List.dropWhile_eq_nil_iff]
      intro x hx
      simp only [ne_eq, decide_not, Bool.not_eq_true', decide_eq_false_iff_not]
      exact h x (List.mem_reverse.1 hx)
    have hdir : dirname filename = "" := by
      simp only [dirname, hdrop]
      rfl
    unfold write_csv makedirs
    rw [hdir, if_pos rfl]
  · exact write_csv_ok fs data filename

/-- Witness for claim C10 at concrete inputs: a bare filename fails, a
path with a parent directory succeeds. -/
theorem claim_C10_witness :
    (∀ c ∈ ("out.csv" : String).data, c ≠ '/') ∧
    write_csv ⟨[], []⟩ [] "out.csv" = Except.error "FileNotFoundError" ∧
    dirname "data/out.csv" ≠ "" ∧
    write_csv ⟨[], []⟩ [] "data/out.csv" =
      Except.ok ⟨dirname "data/out.csv" :: [], ("data/out.csv", csvRows []) :: []⟩ :=
  ⟨by decide, (claim_C10 ⟨[], []⟩ [] "out.csv").1 (by decide),
    by decide, (claim_C10 ⟨[], []⟩ [] "data/out.csv").2 (by decide)⟩

lemma lastNonempty_snoc (l : List SensorRecord) (a : SensorRecord) :
    lastNonempty ((l ++ [a]).map renderRow) = some (renderRow a) := by
  unfold lastNonempty
  rw [List.map_append, List.foldl_append]
  rfl

lemma sorted_max_last (l : List SensorRecord) (a : SensorRecord)
    (hs : (l ++ [a]).Sorted (fun a b => a.timestamp ≤ b.timestamp)) :
    ∀ x ∈ l ++ [a], x.timestamp ≤ a.timestamp := by
  intro x hx
  rcases List.mem_append.1 hx with hx1 | hx2
  · exact (List.pairwise_append.1 hs).2.2 x hx1 a (List.mem_singleton_self a)
  · rw [List.mem_singleton.1 hx2]

/-- Claim C6: for a non-empty generated batch, writing it with `write_csv`
to a path with a parent directory and re-reading the last row's timestamp
with the locator's extraction recovers the maximum timestamp of the
in-memory records (the records carry whole seconds, matching the
second-level truncation of the written format). -/
theorem claim_C6 (R : ℕ) (machines : List String) (p : ℚ) (start : ℚ) (rng : Rng)
    (hv : rng.Valid) (hnd : machines.Nodup) (hne : machines ≠ []) (hR : 0 < R)
    (h0 : 0 ≤ start)
    (hB : ⌊start⌋ + ((R * machines.length * (15 + R * machines.length / 10) : ℕ) : ℤ) <
      253402300800)
    (fs : FileSys) (fn : String) (hfn : dirname fn ≠ "") (N : ℕ) (now : ℤ) :
    ∃ M : ℤ,
      write_csv fs (generate_sensor_data R machines p start rng) fn =
        Except.ok ⟨dirname fn :: fs.dirs,
          (fn, csvRows (generate_sensor_data R machines p start rng)) :: fs.files⟩ ∧
      readLastTimestamp N
        (some (csvRows (generate_sensor_data R machines p start rng))) now =
        ⟨N + 1, some M, false⟩ ∧
      M ∈ (generate_sensor_data R machines p start rng).map
        (fun rec => rec.timestamp) ∧
      ∀ rec ∈ generate_sensor_data R machines p start rng, rec.timestamp ≤ M := by
  have hperm : (generate_sensor_data R machines p start rng).Perm
      (loopState R p machines start rng (R * machines.length)).data := by
    simp only [generate_sensor_data, genFinal]
    exact List.perm_insertionSort _ _
  obtain ⟨_, _, _, _, _, hlen, _⟩ :=
    loop_count R p machines start rng hv hnd hR (R * machines.length) (le_refl _)
  have hlen2 : (generate_sensor_data R machines p start rng).length =
      R * machines.length := by
    rw [hperm.length_eq, hlen]
  have hnedata : generate_sensor_data R machines p start rng ≠ [] := by
    intro hz
    have hM : 0 < machines.length := List.length_pos.2 hne
    rw [hz] at hlen2
    simp only [List.length_nil] at hlen2
    have : 0 < R * machines.length := Nat.mul_pos hR hM
    omega
  have htot := loop_time R p machines start rng hv (R * machines.length)
    (R * machines.length) (le_refl _)
  have hbounds : ∀ rec ∈ generate_sensor_data R machines p start rng,
      0 ≤ rec.timestamp ∧ rec.timestamp < 253402300800 := by
    intro rec hrec
    obtain ⟨hlb, hub⟩ := htot.2.2.1 rec (hperm.mem_iff.1 hrec)
    have htime := htot.2.1
    have hfloor : ⌊(loopState R p machines start rng (R * machines.length)).time⌋ ≤
        ⌊start⌋ + ((R * machines.length * (15 + R * machines.length / 10) : ℕ) : ℤ) := by
      have h2 : start + ((R * machines.length * (15 + R * machines.length / 10) : ℕ) : ℚ) =
          start + (((R * machines.length * (15 + R * machines.length / 10) : ℕ) : ℤ) : ℚ) := by
        norm_cast
      have h3 := Int.floor_mono (le_trans htime (le_of_eq h2))
      rw [Int.floor_add_int] at h3
      exact h3
    have hstart : 0 ≤ ⌊start⌋ := Int.floor_nonneg.2 h0
    omega
  obtain ⟨a, t, hrev⟩ : ∃ a t, (generate_sensor_data R machines p start rng).reverse =
      a :: t := by
    cases hq : (generate_sensor_data R machines p start rng).reverse with
    | nil => exact absurd (List.reverse_eq_nil_iff.1 hq) hnedata
    | cons a t => exact ⟨a, t, rfl⟩
  have hla : generate_sensor_data R machines p start rng = t.reverse ++ [a] := by
    rw [← List.reverse_reverse (generate_sensor_data R machines p start rng), hrev,
      List.reverse_cons]
  have hamem : a ∈ generate_sensor_data R machines p start rng := by
    rw [hla]
    exact List.mem_append.2 (Or.inr (List.mem_singleton_self a))
  refine ⟨a.timestamp, write_csv_ok fs _ fn hfn, ?_, List.mem_map_of_mem _ hamem, ?_⟩
  · have hlast : lastNonempty
        ((generate_sensor_data R machines p start rng).map renderRow) =
        some (renderRow a) := by
      rw [hla]
      exact lastNonempty_snoc t.reverse a
    obtain ⟨ha0, ha1⟩ := hbounds a hamem
    have hp : parseTs (strReplaceZ (formatTs a.timestamp)) = some a.timestamp :=
      parseTs_formatTs a.timestamp ha0 ha1
    have hrow : (renderRow a)[1]? = some (formatTs a.timestamp) := rfl
    show readLastTimestamp N
      (some (csvHeader :: (generate_sensor_data R machines p start rng).map renderRow))
      now = _
    simp only [readLastTimestamp, hlast, hrow, hp]
  · intro rec hrec
    have hs : (generate_sensor_data R machines p start rng).Sorted
        (fun a b => a.timestamp ≤ b.timestamp) :=
      List.sorted_insertionSort _ _
    rw [hla] at hs hrec
    exact sorted_max_last t.reverse a hs rec hrec

/-- Witness for claim C6 at a concrete input. -/
theorem claim_C6_witness :
    zeroRng.Valid ∧
    ∃ M : ℤ,
      write_csv ⟨[], []⟩ (generate_sensor_data 1 ["M001"] 0 0 zeroRng) "data/out.csv" =
        Except.ok ⟨dirname "data/out.csv" :: [],
          ("data/out.csv", csvRows (generate_sensor_data 1 ["M001"] 0 0 zeroRng)) :: []⟩ ∧
      readLastTimestamp 5
        (some (csvRows (generate_sensor_data 1 ["M001"] 0 0 zeroRng))) 0 =
        ⟨5 + 1, some M, false⟩ ∧
      M ∈ (generate_sensor_data 1 ["M001"] 0 0 zeroRng).map (fun rec => rec.timestamp) ∧
      ∀ rec ∈ generate_sensor_data 1 ["M001"] 0 0 zeroRng, rec.timestamp ≤ M :=
  ⟨zeroRng_valid, claim_C6 1 ["M001"] 0 0 zeroRng zeroRng_valid (by decide) (by decide)
    (by decide) (by decide) (by decide) ⟨[], []⟩ "data/out.csv" (by decide) 5 0⟩

end DataGen
